import Mathlib

/-!
# CartPage: a shallow embedding of `Client/src/pages/CartPage.jsx`

The React component is embedded as a record of its state slots (`PageState`),
one Lean function per handler or effect, and a `render` function that keeps
the control structure of the JSX (which branch is shown, which control is
disabled, which handler a control is wired to).

Conventions
* Numbers are JavaScript numbers, that is IEEE 754 binary64 values: a finite
  value (held as the rational it denotes), `Infinity`, `-Infinity` or `NaN`
  (`JSNum`).  Every arithmetic operator computes the exact rational result and
  rounds it to the nearest binary64 value, ties to even (`roundF64`).  The sign
  of zero is not modelled: no operation of the page tells `-0` from `0`.
  Reading an absent key of an object gives `undefined`, which every arithmetic
  operator and comparison of the page coerces to `NaN`.
* Number fields of the data (`price`, `discount`) hold the rational denoted by
  a finite binary64 value.
* Objects used as maps (`editedQuantities`, `itemsBeingDeleted`) are association
  lists with the semantics of `obj[key]` and `{...obj, [key]: v}`.
* Asynchronous handlers are split at their suspension points.  The outcome of
  each HTTP request and of `fetchCart` (which lives in `CartContext`, outside
  this file) is a parameter; every outgoing call is appended to `calls`.
-/

namespace CartPage

/-! ## JavaScript values -/

/-- A JavaScript number: a finite binary64 value, an infinity, or `NaN`. -/
inductive JSNum where
  | num (q : ℚ)
  | posInf
  | negInf
  | nan
  deriving DecidableEq, Repr

/-- Rounding of a rational to the nearest integer, ties to the even one. -/
def roundHalfEven (x : ℚ) : ℤ :=
  if x - ⌊x⌋ < 1 / 2 then ⌊x⌋
  else if 1 / 2 < x - ⌊x⌋ then ⌊x⌋ + 1
  else if ⌊x⌋ % 2 = 0 then ⌊x⌋ else ⌊x⌋ + 1

/-- The exponent of the binade in which a nonzero `x` is rounded: the floor of
the binary logarithm of `|x|`, and -1022 for the subnormal range. -/
def f64Exponent (x : ℚ) : ℤ :=
  max (Int.log 2 |x|) (-1022)

/-- Rounding of an exact result to binary64 (round to nearest, ties to even):
the significand has 53 bits, so the spacing in the binade of exponent `e` is
`2 ^ (e - 52)`; a result that rounds to `2 ^ 1024` or beyond overflows to an
infinity. -/
def roundF64 (x : ℚ) : JSNum :=
  if x = 0 then JSNum.num 0
  else if (2 : ℚ) ^ (1024 : ℕ)
      ≤ |(roundHalfEven (x / 2 ^ (f64Exponent x - 52)) : ℚ) * 2 ^ (f64Exponent x - 52)| then
    (if 0 < x then JSNum.posInf else JSNum.negInf)
  else JSNum.num ((roundHalfEven (x / 2 ^ (f64Exponent x - 52)) : ℚ) * 2 ^ (f64Exponent x - 52))

namespace JSNum

/-- The sign of a number: 1, -1, or 0 (for zero and for `NaN`). -/
def sgn : JSNum → ℤ
  | num a => if 0 < a then 1 else if a < 0 then -1 else 0
  | posInf => 1
  | negInf => -1
  | nan => 0

/-- The operator `a + b` on numbers. -/
def add : JSNum → JSNum → JSNum
  | num a, num b => roundF64 (a + b)
  | nan, _ => nan
  | _, nan => nan
  | posInf, negInf => nan
  | negInf, posInf => nan
  | posInf, _ => posInf
  | _, posInf => posInf
  | negInf, _ => negInf
  | _, negInf => negInf

/-- The operator `a - b` on numbers. -/
def sub : JSNum → JSNum → JSNum
  | num a, num b => roundF64 (a - b)
  | nan, _ => nan
  | _, nan => nan
  | posInf, posInf => nan
  | negInf, negInf => nan
  | posInf, _ => posInf
  | negInf, _ => negInf
  | _, posInf => negInf
  | _, negInf => posInf

/-- The operator `a * b` on numbers. -/
def mul : JSNum → JSNum → JSNum
  | num a, num b => roundF64 (a * b)
  | nan, _ => nan
  | _, nan => nan
  | a, b =>
    if a.sgn * b.sgn = 0 then nan
    else if 0 < a.sgn * b.sgn then posInf else negInf

/-- The expression `a / 100` (the only division of the page has the literal divisor 100). -/
def div100 : JSNum → JSNum
  | num a => roundF64 (a / 100)
  | posInf => posInf
  | negInf => negInf
  | nan => nan

/-- The comparison `a < b`; false as soon as one side is `NaN`. -/
def lt : JSNum → JSNum → Bool
  | num a, num b => decide (a < b)
  | nan, _ => false
  | _, nan => false
  | posInf, _ => false
  | _, negInf => false
  | _, _ => true

/-- The comparison `a <= b`; false as soon as one side is `NaN`. -/
def le : JSNum → JSNum → Bool
  | num a, num b => decide (a ≤ b)
  | nan, _ => false
  | _, nan => false
  | negInf, _ => true
  | _, posInf => true
  | _, _ => false

/-- Truthiness of a number: `0` and `NaN` are falsy. -/
def truthy : JSNum → Bool
  | num a => decide (a ≠ 0)
  | posInf => true
  | negInf => true
  | nan => false

/-- The expression `a || b` on numbers. -/
def orElse (a b : JSNum) : JSNum :=
  if a.truthy then a else b

end JSNum

/-- The expression `obj[key]`; `none` stands for `undefined`. -/
def objGet {α : Type} : List (String × α) → String → Option α
  | [], _ => none
  | (k, v) :: rest, key => if k = key then some v else objGet rest key

/-- The expression `{...obj, [key]: v}`: an existing key keeps its place and
takes the new value, a new key is added at the end. -/
def objSet {α : Type} : List (String × α) → String → α → List (String × α)
  | [], key, v => [(key, v)]
  | (k, w) :: rest, key, v =>
    if k = key then (k, v) :: rest else (k, w) :: objSet rest key v

/-- A numeric read `obj[key]` in an arithmetic or comparison position:
`undefined` is coerced to `NaN`. -/
def numAt (obj : List (String × JSNum)) (key : String) : JSNum :=
  match objGet obj key with
  | some v => v
  | none => JSNum.nan

/-- A read `obj[key]` in a boolean position: `undefined` is falsy. -/
def flagAt (obj : List (String × Bool)) (key : String) : Bool :=
  match objGet obj key with
  | some b => b
  | none => false

/-! ## Data model -/

/-- The product a cart item refers to (`item.product`). -/
structure Product where
  _id : String
  name : String
  price : ℚ
  deriving DecidableEq, Repr

/-- An item of the shared cart store. -/
structure CartItem where
  _id : String
  product : Product
  quantity : JSNum
  deriving DecidableEq, Repr

/-- A vendor as returned by `GET /user`; `discount` is `none` when the field is absent. -/
structure Vendor where
  _id : String
  firmName : String
  discount : Option ℚ
  deriving DecidableEq, Repr

/-- An outgoing call of the page. -/
inductive Call where
  | deleteReq (id : String)
  | fetchCart
  deriving DecidableEq, Repr

/-- The state slots of `CartPage` together with the cart of `useCart()` and
the trace of outgoing calls. -/
structure PageState where
  cart : List CartItem
  editedQuantities : List (String × JSNum)
  error : Option String
  loading : Bool
  itemsBeingDeleted : List (String × Bool)
  vendors : List Vendor
  selectedVendor : String
  discount : ℚ
  modalOpen : Bool
  processingPayment : Bool
  paymentSuccess : Bool
  checkoutDone : Bool
  calls : List Call
  deriving DecidableEq, Repr

/-- The initial state of the component (the `useState` defaults) over a cart
store holding `cart`, before any effect has run. -/
def initialState (cart : List CartItem) : PageState :=
  { cart := cart, editedQuantities := [], error := none, loading := false,
    itemsBeingDeleted := [], vendors := [], selectedVendor := "", discount := 0,
    modalOpen := false, processingPayment := false, paymentSuccess := false,
    checkoutDone := false, calls := [] }

/-! ## Effects -/

/-- The object built by the effect "Initialize quantities":
`cart.forEach((item) => { initial[item._id] = item.quantity })`. -/
def initQuantities (cart : List CartItem) : List (String × JSNum) :=
  cart.foldl (fun initial item => objSet initial item._id item.quantity) []

/-- The cart store takes a new value and the effect on `[cart]` runs. -/
def storeCart (s : PageState) (cart : List CartItem) : PageState :=
  { s with cart := cart, editedQuantities := initQuantities cart }

/-- The value passed to `setDiscount` by the effect "Apply vendor discount":
`vendors.find((v) => v._id === selectedVendor)?.discount || 0`. -/
def applyVendorDiscount (vendors : List Vendor) (selectedVendor : String) : ℚ :=
  match vendors.find? (fun v => decide (v._id = selectedVendor)) with
  | none => 0
  | some vendor =>
    match vendor.discount with
    | none => 0
    | some d => if d ≠ 0 then d else 0

/-- The effect "Load vendors" run to completion: `res` is the outcome of
`GET /user` (`some vs`: the response data; `none`: the request failed); the
effect on `[selectedVendor, vendors]` runs after `setVendors`. -/
def fetchVendors (s : PageState) (res : Option (List Vendor)) : PageState :=
  match res with
  | some vs =>
    { s with vendors := vs, discount := applyVendorDiscount vs s.selectedVendor,
             loading := false }
  | none => { s with error := some "Failed to load vendors.", loading := false }

/-- The vendor select changes (`setSelectedVendor(e.target.value)`) and the
effect on `[selectedVendor, vendors]` runs. -/
def selectVendor (s : PageState) (id : String) : PageState :=
  { s with selectedVendor := id, discount := applyVendorDiscount s.vendors id }

/-! ## Totals and invoice -/

/-- The object returned by `calculateTotal`. -/
structure Totals where
  subtotal : JSNum
  discount : JSNum
  total : JSNum
  deriving DecidableEq, Repr

/-- The function `calculateTotal`. -/
def calculateTotal (s : PageState) : Totals :=
  let subtotal := s.cart.foldl
    (fun sum item =>
      sum.add ((JSNum.num item.product.price).mul (numAt s.editedQuantities item._id)))
    (JSNum.num 0)
  let discAmt := (subtotal.mul (JSNum.num s.discount)).div100
  { subtotal := subtotal, discount := discAmt, total := subtotal.sub discAmt }

/-- One body row of the invoice table, before string formatting: product name,
unit price, the raw read `editedQuantities[item._id]`, and the line subtotal. -/
structure InvoiceRow where
  name : String
  price : ℚ
  qty : Option JSNum
  lineSubtotal : JSNum
  deriving DecidableEq, Repr

/-- The content `generatePDF` writes into the document, before string
formatting (`toFixed(2)` and the currency sign are not modelled). -/
structure Invoice where
  rows : List InvoiceRow
  subtotal : JSNum
  discountPct : ℚ
  discountAmount : JSNum
  total : JSNum
  fileName : String
  deriving DecidableEq, Repr

/-- The function `generatePDF`; `subtotal`, `discountAmount` and `total` are the
values destructured from `calculateTotal()` in the same render. -/
def generatePDF (s : PageState) : Invoice :=
  let rows := s.cart.map (fun item =>
    { name := item.product.name,
      price := item.product.price,
      qty := objGet s.editedQuantities item._id,
      lineSubtotal := (JSNum.num item.product.price).mul (numAt s.editedQuantities item._id)
      : InvoiceRow })
  let t := calculateTotal s
  { rows := rows, subtotal := t.subtotal, discountPct := s.discount,
    discountAmount := t.discount, total := t.total, fileName := "invoice.pdf" }

/-! ## Quantity editor -/

/-- The function `handleQuantityChange`. -/
def handleQuantityChange (s : PageState) (id : String) (qty : JSNum) : PageState :=
  if qty.lt (JSNum.num 1) then s
  else { s with editedQuantities := objSet s.editedQuantities id qty }

/-- The `disabled` attribute of the decrement button of `item`. -/
def decrementDisabled (s : PageState) (item : CartItem) : Bool :=
  (numAt s.editedQuantities item._id).le (JSNum.num 1)

/-- A click on the decrement button of `item` (nothing happens on a disabled button). -/
def clickDecrement (s : PageState) (item : CartItem) : PageState :=
  if decrementDisabled s item then s
  else handleQuantityChange s item._id ((numAt s.editedQuantities item._id).sub (JSNum.num 1))

/-- A click on the increment button of `item`. -/
def clickIncrement (s : PageState) (item : CartItem) : PageState :=
  handleQuantityChange s item._id ((numAt s.editedQuantities item._id).add (JSNum.num 1))

/-- The `onChange` handler of the quantity input of `item`; `parsed` is the
value of `parseInt(e.target.value)` (an integer or `NaN`). -/
def changeQuantityInput (s : PageState) (item : CartItem) (parsed : JSNum) : PageState :=
  handleQuantityChange s item._id (parsed.orElse (JSNum.num 1))

/-! ## Item removal -/

/-- The function `handleDelete` up to its first `await`: the flag is set and the
delete request is sent. -/
def handleDeleteStart (s : PageState) (id : String) : PageState :=
  { s with
    itemsBeingDeleted := objSet s.itemsBeingDeleted id true,
    calls := s.calls ++ [Call.deleteReq id] }

/-- The rest of `handleDelete` once the delete request has settled.  `deleteOk`
tells whether the request succeeded; `fetched` is the outcome of `fetchCart()`
(`some c`: resolved, the store now holds `c`; `none`: rejected). -/
def handleDeleteSettle (s : PageState) (id : String) (deleteOk : Bool)
    (fetched : Option (List CartItem)) : PageState :=
  let afterTry : PageState :=
    if deleteOk then
      let called : PageState := { s with calls := s.calls ++ [Call.fetchCart] }
      match fetched with
      | some c => storeCart called c
      | none => { called with error := some "Failed to delete." }
    else { s with error := some "Failed to delete." }
  { afterTry with itemsBeingDeleted := objSet afterTry.itemsBeingDeleted id false }

/-- The function `handleDelete` run to completion with no other event in between. -/
def handleDelete (s : PageState) (id : String) (deleteOk : Bool)
    (fetched : Option (List CartItem)) : PageState :=
  handleDeleteSettle (handleDeleteStart s id) id deleteOk fetched

/-- The `disabled` attribute of the delete button of `item`:
`itemsBeingDeleted[item._id]`. -/
def deleteDisabled (s : PageState) (item : CartItem) : Bool :=
  flagAt s.itemsBeingDeleted item._id

/-- A click on the delete button of `item`: `handleDelete(item.product._id)`
starts unless the button is disabled. -/
def clickDelete (s : PageState) (item : CartItem) : PageState :=
  if deleteDisabled s item then s else handleDeleteStart s item.product._id

/-! ## Checkout modal and simulated payment -/

/-- The function `openModal`. -/
def openModal (s : PageState) : PageState :=
  { s with modalOpen := true }

/-- The function `closeModal`. -/
def closeModal (s : PageState) : PageState :=
  { s with modalOpen := false }

/-- The synchronous part of `handlePayment`, before the 2000 ms timer. -/
def handlePaymentStart (s : PageState) : PageState :=
  { s with processingPayment := true, error := none }

/-- The callback of the 2000 ms timer up to `Promise.all`: the payment is
marked successful and one delete request is sent per item of `cart`, the cart
captured by the closure of `handlePayment`. -/
def handlePaymentTimeout (s : PageState) (cart : List CartItem) : PageState :=
  { s with
    processingPayment := false,
    paymentSuccess := true,
    calls := s.calls ++ cart.map (fun item => Call.deleteReq item.product._id) }

/-- The outcome of `Promise.all` over `n` requests: fulfilled exactly when
every request is; `outcomes i` tells whether request number `i` succeeded. -/
def allFulfilled (n : Nat) (outcomes : Nat → Bool) : Bool :=
  (List.range n).all outcomes

/-- The link `.then(() => fetchCart())` of the chain: it runs only when
`Promise.all` is fulfilled.  `fetched` is the outcome of `fetchCart()`. -/
def handlePaymentThen (s : PageState) (n : Nat) (outcomes : Nat → Bool)
    (fetched : Option (List CartItem)) : PageState :=
  if allFulfilled n outcomes then
    let called : PageState := { s with calls := s.calls ++ [Call.fetchCart] }
    match fetched with
    | some c => storeCart called c
    | none => called
  else s

/-- The callback of the 1000 ms timer set in `.finally(...)`. -/
def handlePaymentFinally (s : PageState) : PageState :=
  { closeModal s with checkoutDone := true }

/-- The function `handlePayment` run to completion with no other event in
between; the cart captured by its closure is the cart of the state it is
called in. -/
def handlePayment (s : PageState) (outcomes : Nat → Bool)
    (fetched : Option (List CartItem)) : PageState :=
  handlePaymentFinally
    (handlePaymentThen (handlePaymentTimeout (handlePaymentStart s) s.cart)
      s.cart.length outcomes fetched)

/-! ## Rendering -/

/-- The button in the "Summary & Actions" card. -/
inductive PrimaryAction where
  | proceedToCheckout (disabled : Bool)
  | downloadInvoice
  deriving DecidableEq, Repr

/-- The controls rendered for one cart item. -/
structure ItemControls where
  key : String
  decrementDisabled : Bool
  selectDisabled : Bool
  deleteDisabled : Bool
  deleteTarget : String
  deriving DecidableEq, Repr

/-- The two branches of `cart.length === 0 ? ... : ...`. -/
inductive Body where
  | emptyState
  | cartView (items : List ItemControls) (action : PrimaryAction)
  deriving DecidableEq, Repr

/-- What `CartPage` returns, reduced to its control structure. -/
structure View where
  errorBanner : Option String
  body : Body
  modalShown : Bool
  deriving DecidableEq, Repr

/-- The ternary `!checkoutDone ? <Proceed to Checkout> : <Download Invoice>`. -/
def primaryAction (s : PageState) : PrimaryAction :=
  if !s.checkoutDone then
    PrimaryAction.proceedToCheckout (decide (s.selectedVendor = ""))
  else PrimaryAction.downloadInvoice

/-- The JSX returned by `CartPage`. -/
def render (s : PageState) : View :=
  { errorBanner := s.error.filter (fun e => decide (e ≠ "")),
    body :=
      if s.cart.length = 0 then Body.emptyState
      else
        Body.cartView
          (s.cart.map (fun item =>
            { key := item._id,
              decrementDisabled := decrementDisabled s item,
              selectDisabled := deleteDisabled s item,
              deleteDisabled := deleteDisabled s item,
              deleteTarget := item.product._id : ItemControls }))
          (primaryAction s),
    modalShown := s.modalOpen }

/-- The view offers the invoice download. -/
def View.hasDownloadInvoice (v : View) : Bool :=
  match v.body with
  | Body.cartView _ PrimaryAction.downloadInvoice => true
  | _ => false

/-- The `disabled` attribute of the "Proceed to Checkout" button, when the
view contains that button. -/
def View.checkoutDisabled (v : View) : Option Bool :=
  match v.body with
  | Body.cartView _ (PrimaryAction.proceedToCheckout d) => some d
  | _ => none

/-- A click on "Proceed to Checkout": `openModal` runs when the button is in
the view and enabled; otherwise there is no transition. -/
def clickCheckout (s : PageState) : Option PageState :=
  match (render s).checkoutDisabled with
  | some false => some (openModal s)
  | _ => none

/-! ## Example states -/

/-- The cart item of the scenario of the specification: unit price 100,
quantity 2; its own key and the key of its product differ. -/
def scenarioItem : CartItem :=
  { _id := "c1", product := { _id := "p1", name := "Burka", price := 100 },
    quantity := JSNum.num 2 }

/-- A vendor with a 10% discount. -/
def scenarioVendor : Vendor :=
  { _id := "v1", firmName := "Firm", discount := some 10 }

/-- A vendor without a discount field. -/
def plainVendor : Vendor :=
  { _id := "v2", firmName := "Plain", discount := none }

/-- The page showing the scenario cart after the vendors have loaded and the
10% vendor has been selected. -/
def scenarioState : PageState :=
  selectVendor
    (fetchVendors (storeCart (initialState [scenarioItem]) [scenarioItem])
      (some [scenarioVendor, plainVendor]))
    "v1"

/-- The page showing one item with edited quantity 5. -/
def editorState : PageState :=
  handleQuantityChange (storeCart (initialState [scenarioItem]) [scenarioItem]) "c1"
    (JSNum.num 5)

/-- A second cart item. -/
def secondItem : CartItem :=
  { _id := "c2", product := { _id := "p2", name := "Scarf", price := 50 },
    quantity := JSNum.num 1 }

/-- The page showing two items, vendor selected, modal open. -/
def twoItemState : PageState :=
  openModal
    (selectVendor
      (fetchVendors
        (storeCart (initialState [scenarioItem, secondItem]) [scenarioItem, secondItem])
        (some [scenarioVendor, plainVendor]))
      "v1")

/-- The scenario page after the modal was opened, payment was confirmed, the
delete succeeded and the refetched cart is empty. -/
def paidState : PageState :=
  handlePayment (openModal scenarioState) (fun _ => true) (some [])

/-- A cart item with a large integer unit price, below `2 ^ 53`. -/
def bigItem : CartItem :=
  { _id := "c9", product := { _id := "p9", name := "Bulk", price := 9007199254740985 },
    quantity := JSNum.num 1 }

/-- A vendor with a 100% discount. -/
def fullDiscountVendor : Vendor :=
  { _id := "v9", firmName := "Free", discount := some 100 }

/-- The page showing the large item with the 100% vendor selected. -/
def bigState : PageState :=
  selectVendor
    (fetchVendors (storeCart (initialState [bigItem]) [bigItem]) (some [fullDiscountVendor]))
    "v9"

/-- The page showing one item with edited quantity `2 ^ 53`. -/
def bigEditorState : PageState :=
  handleQuantityChange (storeCart (initialState [scenarioItem]) [scenarioItem]) "c1"
    (JSNum.num 9007199254740992)

/-- The scenario page after a completed payment whose delete succeeded and
whose refetch found another item in the shared cart store. -/
def refilledState : PageState :=
  handlePayment (openModal scenarioState) (fun _ => true) (some [secondItem])

/-- The body row `generatePDF` builds for `item` in state `s`. -/
def invoiceRow (s : PageState) (item : CartItem) : InvoiceRow :=
  { name := item.product.name,
    price := item.product.price,
    qty := objGet s.editedQuantities item._id,
    lineSubtotal := (JSNum.num item.product.price).mul (numAt s.editedQuantities item._id) }

/-- The subtotal in the words of the specification: the sum over the cart
items of unit price × edited quantity, for quantities given by `qty`. -/
def specSubtotal (cart : List CartItem) (qty : String → ℕ) : ℚ :=
  (cart.map (fun item => item.product.price * (qty item._id : ℚ))).sum

/-! ## Lemmas on binary64 rounding -/

theorem roundHalfEven_intCast (n : ℤ) : roundHalfEven (n : ℚ) = n := by
  simp [roundHalfEven]

theorem roundHalfEven_bounds (x : ℚ) : ⌊x⌋ ≤ roundHalfEven x ∧ roundHalfEven x ≤ ⌊x⌋ + 1 := by
  unfold roundHalfEven
  split
  · omega
  · split
    · omega
    · split <;> omega

theorem roundHalfEven_le_of_le (x : ℚ) (k : ℤ) (h : x ≤ k) : roundHalfEven x ≤ k := by
  have hfl : ⌊x⌋ ≤ k := by
    have := Int.floor_le x
    exact Int.le_of_lt_add_one (Int.floor_lt.mpr (by push_cast; linarith))
  by_cases hr : x - ⌊x⌋ < 1 / 2
  · rw [roundHalfEven, if_pos hr]
    exact hfl
  · have hlt : (⌊x⌋ : ℚ) < k := by
      have : (⌊x⌋ : ℚ) < x := by linarith
      linarith
    have hlt2 : ⌊x⌋ < k := by exact_mod_cast hlt
    have := (roundHalfEven_bounds x).2
    omega

theorem roundHalfEven_nonneg (x : ℚ) (h : 0 ≤ x) : 0 ≤ roundHalfEven x := by
  have h1 : 0 ≤ ⌊x⌋ := Int.floor_nonneg.mpr h
  have := (roundHalfEven_bounds x).1
  omega

/-- Nearest integer when strictly closer than one half. -/
theorem roundHalfEven_eq_of_near (x : ℚ) (n : ℤ) (h : |x - n| < 1 / 2) :
    roundHalfEven x = n := by
  rw [abs_lt] at h
  by_cases hn : (n : ℚ) ≤ x
  · have hf : ⌊x⌋ = n := by
      rw [Int.floor_eq_iff]
      constructor
      · exact hn
      · linarith
    have hr : x - ⌊x⌋ < 1 / 2 := by rw [hf]; linarith
    rw [roundHalfEven, if_pos hr, hf]
  · have hf : ⌊x⌋ = n - 1 := by
      rw [Int.floor_eq_iff]
      push_cast
      constructor
      · linarith
      · linarith
    have hr : ¬ (x - ⌊x⌋ < 1 / 2) := by rw [hf]; push_cast; linarith
    have hr2 : 1 / 2 < x - ⌊x⌋ := by rw [hf]; push_cast; linarith
    rw [roundHalfEven, if_neg hr, if_pos hr2, hf]
    omega

theorem roundHalfEven_tie_even (n : ℤ) (h : n % 2 = 0) :
    roundHalfEven ((n : ℚ) + 1 / 2) = n := by
  have hf : ⌊(n : ℚ) + 1 / 2⌋ = n := by
    rw [Int.floor_eq_iff]
    constructor <;> linarith
  have hr : ¬ ((n : ℚ) + 1 / 2 - ⌊(n : ℚ) + 1 / 2⌋ < 1 / 2) := by rw [hf]; simp
  have hr2 : ¬ (1 / 2 < (n : ℚ) + 1 / 2 - ⌊(n : ℚ) + 1 / 2⌋) := by rw [hf]; simp
  rw [roundHalfEven, if_neg hr, if_neg hr2, hf, if_pos h]

theorem f64Exponent_le (x : ℚ) (hx : x ≠ 0) (b : ℤ) (hb : -1022 ≤ b)
    (h : |x| < 2 ^ (b + 1)) : f64Exponent x ≤ b := by
  have hpos : 0 < |x| := abs_pos.mpr hx
  have hlog : Int.log 2 |x| < b + 1 := by
    apply (Int.lt_zpow_iff_log_lt (by norm_num) hpos).mp
    simpa using h
  unfold f64Exponent
  exact max_le (by omega) hb

theorem f64Exponent_eq (x : ℚ) (hx : x ≠ 0) (e : ℤ) (he : -1022 ≤ e)
    (hlo : 2 ^ e ≤ |x|) (hhi : |x| < 2 ^ (e + 1)) : f64Exponent x = e := by
  have hpos : 0 < |x| := abs_pos.mpr hx
  have h1 : e ≤ Int.log 2 |x| := by
    apply (Int.zpow_le_iff_le_log (by norm_num) hpos).mp
    simpa using hlo
  have h2 : Int.log 2 |x| < e + 1 := by
    apply (Int.lt_zpow_iff_log_lt (by norm_num) hpos).mp
    simpa using hhi
  unfold f64Exponent
  have : Int.log 2 |x| = e := by omega
  rw [this]
  exact max_eq_left he

/-- The value of `roundF64` once the binade and the rounded significand are known. -/
theorem roundF64_eval (x : ℚ) (e n : ℤ) (hx : x ≠ 0) (he : -1022 ≤ e)
    (hlo : 2 ^ e ≤ |x|) (hhi : |x| < 2 ^ (e + 1))
    (hn : roundHalfEven (x / 2 ^ (e - 52)) = n)
    (hfin : |(n : ℚ) * 2 ^ (e - 52)| < 2 ^ (1024 : ℕ)) :
    roundF64 x = JSNum.num ((n : ℚ) * 2 ^ (e - 52)) := by
  have hexp := f64Exponent_eq x hx e he hlo hhi
  rw [roundF64, if_neg hx, hexp, hn, if_neg (not_le.mpr hfin)]

/-- Every `m * 2 ^ j` with `|m| < 2 ^ 53`, `j ≥ -1074` and magnitude below
`2 ^ 1024` is a binary64 number: rounding leaves it unchanged. -/
theorem roundF64_dyadic (m j : ℤ) (hm : |m| < 2 ^ 53) (hj : -1074 ≤ j)
    (hfin : |(m : ℚ) * 2 ^ j| < 2 ^ (1024 : ℕ)) :
    roundF64 ((m : ℚ) * 2 ^ j) = JSNum.num ((m : ℚ) * 2 ^ j) := by
  by_cases hx : (m : ℚ) * 2 ^ j = 0
  · rw [hx]
    simp [roundF64]
  · have h2pos : (0 : ℚ) < 2 ^ j := zpow_pos (by norm_num) j
    have hmQ : |(m : ℚ)| < 2 ^ (53 : ℕ) := by exact_mod_cast hm
    have habs : |(m : ℚ) * 2 ^ j| < 2 ^ (j + 52 + 1) := by
      rw [abs_mul, abs_of_pos h2pos]
      have : (2 : ℚ) ^ (j + 52 + 1) = 2 ^ (53 : ℕ) * 2 ^ j := by
        rw [show j + 52 + 1 = (53 : ℤ) + j by ring, zpow_add₀ (by norm_num)]
        norm_num
      rw [this]
      exact mul_lt_mul_of_pos_right hmQ h2pos
    have hle : f64Exponent ((m : ℚ) * 2 ^ j) ≤ j + 52 :=
      f64Exponent_le _ hx (j + 52) (by omega) habs
    obtain ⟨t, ht⟩ : ∃ t : ℕ, j - (f64Exponent ((m : ℚ) * 2 ^ j) - 52) = t :=
      ⟨(j - (f64Exponent ((m : ℚ) * 2 ^ j) - 52)).toNat, (Int.toNat_of_nonneg (by omega)).symm⟩
    have hdiv : (m : ℚ) * 2 ^ j / 2 ^ (f64Exponent ((m : ℚ) * 2 ^ j) - 52)
        = ((m * 2 ^ t : ℤ) : ℚ) := by
      rw [mul_div_assoc, ← zpow_sub₀ (by norm_num), ht, zpow_natCast]
      push_cast
      rfl
    have hback : ((m * 2 ^ t : ℤ) : ℚ) * 2 ^ (f64Exponent ((m : ℚ) * 2 ^ j) - 52)
        = (m : ℚ) * 2 ^ j := by
      rw [← hdiv]
      exact div_mul_cancel₀ _ (zpow_ne_zero _ (by norm_num))
    rw [roundF64, if_neg hx, hdiv, roundHalfEven_intCast, hback, if_neg (not_le.mpr hfin)]

theorem roundF64_intCast (n : ℤ) (h : |n| ≤ 2 ^ 53) : roundF64 (n : ℚ) = JSNum.num n := by
  have hbig : (2 : ℚ) ^ (53 : ℕ) < 2 ^ (1024 : ℕ) := by norm_num
  by_cases hlt : |n| < 2 ^ 53
  · have hfin : |(n : ℚ) * 2 ^ (0 : ℤ)| < 2 ^ (1024 : ℕ) := by
      have : |(n : ℚ)| < 2 ^ (53 : ℕ) := by exact_mod_cast hlt
      simpa using this.trans hbig
    simpa using roundF64_dyadic n 0 hlt (by norm_num) hfin
  · have heq : |n| = 2 ^ 53 := le_antisymm h (not_lt.mp hlt)
    have hsign : n = 2 ^ 53 ∨ n = -(2 ^ 53) := by
      rcases abs_cases n with ⟨h1, _⟩ | ⟨h1, _⟩ <;> omega
    rcases hsign with h1 | h1
    · have := roundF64_dyadic 1 53 (by norm_num) (by norm_num) (by norm_num)
      rw [h1]
      norm_num at this ⊢
      exact this
    · have := roundF64_dyadic (-1) 53 (by norm_num) (by norm_num) (by norm_num)
      rw [h1]
      norm_num at this ⊢
      exact this

theorem roundF64_natCast (n : ℕ) (h : n ≤ 2 ^ 53) : roundF64 (n : ℚ) = JSNum.num n := by
  have := roundF64_intCast (n : ℤ) (by
    rw [abs_of_nonneg (Int.natCast_nonneg n)]
    exact_mod_cast h)
  simpa using this

/-- Rounding a positive number that lies below an integer `k ≤ 2 ^ 53` gives a
finite number between 0 and `k`. -/
theorem roundF64_le_int (x : ℚ) (k : ℤ) (hx : 0 < x) (hxk : x ≤ k) (hk : k ≤ 2 ^ 53) :
    ∃ y : ℚ, roundF64 x = JSNum.num y ∧ 0 ≤ y ∧ y ≤ k := by
  have hx0 : x ≠ 0 := ne_of_gt hx
  have hkQ : (k : ℚ) ≤ 2 ^ (53 : ℕ) := by exact_mod_cast hk
  by_cases hxeq : x = 2 ^ (53 : ℕ)
  · refine ⟨x, ?_, le_of_lt hx, hxk⟩
    have := roundF64_natCast (2 ^ 53) (le_refl _)
    rw [hxeq]
    simpa using this
  · have hxlt : x < 2 ^ (53 : ℕ) := lt_of_le_of_ne (hxk.trans hkQ) hxeq
    have habs : |x| < 2 ^ ((52 : ℤ) + 1) := by
      rw [abs_of_pos hx]
      have : (2 : ℚ) ^ ((52 : ℤ) + 1) = 2 ^ (53 : ℕ) := by norm_num
      rw [this]
      exact hxlt
    have hle : f64Exponent x ≤ 52 := f64Exponent_le x hx0 52 (by norm_num) habs
    obtain ⟨t, ht⟩ : ∃ t : ℕ, 52 - f64Exponent x = t :=
      ⟨(52 - f64Exponent x).toNat, (Int.toNat_of_nonneg (by omega)).symm⟩
    have hulp : (2 : ℚ) ^ (f64Exponent x - 52) = ((2 : ℚ) ^ t)⁻¹ := by
      rw [show f64Exponent x - 52 = -(t : ℤ) by omega, zpow_neg, zpow_natCast]
    have htpos : (0 : ℚ) < 2 ^ t := pow_pos (by norm_num) t
    have hdiv : x / 2 ^ (f64Exponent x - 52) = x * 2 ^ t := by
      rw [hulp, div_inv_eq_mul]
    have hupper : roundHalfEven (x * 2 ^ t) ≤ k * 2 ^ t := by
      apply roundHalfEven_le_of_le
      push_cast
      exact mul_le_mul_of_nonneg_right hxk (le_of_lt htpos)
    have hlower : 0 ≤ roundHalfEven (x * 2 ^ t) :=
      roundHalfEven_nonneg _ (mul_nonneg (le_of_lt hx) (le_of_lt htpos))
    have hupperQ : (roundHalfEven (x * 2 ^ t) : ℚ) ≤ (k : ℚ) * 2 ^ t := by exact_mod_cast hupper
    have hlowerQ : (0 : ℚ) ≤ (roundHalfEven (x * 2 ^ t) : ℚ) := by exact_mod_cast hlower
    have hy0 : 0 ≤ (roundHalfEven (x * 2 ^ t) : ℚ) * ((2 : ℚ) ^ t)⁻¹ :=
      mul_nonneg hlowerQ (inv_nonneg.mpr (le_of_lt htpos))
    have hyk : (roundHalfEven (x * 2 ^ t) : ℚ) * ((2 : ℚ) ^ t)⁻¹ ≤ k := by
      rw [← div_eq_mul_inv, div_le_iff₀ htpos]
      exact hupperQ
    have hfin : ¬ ((2 : ℚ) ^ (1024 : ℕ)
        ≤ |(roundHalfEven (x * 2 ^ t) : ℚ) * ((2 : ℚ) ^ t)⁻¹|) := by
      rw [abs_of_nonneg hy0, not_le]
      have hbig : (2 : ℚ) ^ (53 : ℕ) < 2 ^ (1024 : ℕ) := by norm_num
      exact lt_of_le_of_lt (hyk.trans hkQ) hbig
    refine ⟨(roundHalfEven (x * 2 ^ t) : ℚ) * ((2 : ℚ) ^ t)⁻¹, ?_, hy0, hyk⟩
    rw [roundF64, if_neg hx0, hdiv, hulp, if_neg hfin]

/-! ## Arithmetic on finite numbers -/

theorem JSNum.add_num (a b : ℚ) : (JSNum.num a).add (JSNum.num b) = roundF64 (a + b) := rfl

theorem JSNum.sub_num (a b : ℚ) : (JSNum.num a).sub (JSNum.num b) = roundF64 (a - b) := rfl

theorem JSNum.mul_num (a b : ℚ) : (JSNum.num a).mul (JSNum.num b) = roundF64 (a * b) := rfl

theorem JSNum.div100_num (a : ℚ) : (JSNum.num a).div100 = roundF64 (a / 100) := rfl

theorem JSNum.lt_num (a b : ℚ) : (JSNum.num a).lt (JSNum.num b) = decide (a < b) := rfl

theorem JSNum.le_num (a b : ℚ) : (JSNum.num a).le (JSNum.num b) = decide (a ≤ b) := rfl

theorem roundF64_zero : roundF64 0 = JSNum.num 0 := by
  simp [roundF64]

theorem roundF64_one : roundF64 1 = JSNum.num 1 := by
  simpa using roundF64_natCast 1 (by norm_num)

theorem roundF64_ofNat (n : ℕ) [n.AtLeastTwo] (h : n ≤ 2 ^ 53) :
    roundF64 (OfNat.ofNat n : ℚ) = JSNum.num (OfNat.ofNat n : ℚ) := by
  simpa using roundF64_natCast n h

/-! ## Lemmas on objects -/

theorem objGet_objSet_same {α : Type} (obj : List (String × α)) (key : String) (v : α) :
    objGet (objSet obj key v) key = some v := by
  induction obj with
  | nil => simp [objSet, objGet]
  | cons hd tl ih =>
    obtain ⟨k, w⟩ := hd
    by_cases hk : k = key
    · simp [objSet, objGet, hk]
    · simp [objSet, objGet, hk, ih]

theorem objGet_objSet_other {α : Type} (obj : List (String × α)) (key k : String) (v : α)
    (hne : k ≠ key) : objGet (objSet obj key v) k = objGet obj k := by
  induction obj with
  | nil =>
    have hne2 : ¬ key = k := fun h => hne h.symm
    simp [objSet, objGet, hne2]
  | cons hd tl ih =>
    obtain ⟨k0, w⟩ := hd
    by_cases hk : k0 = key
    · have hk0 : ¬ k0 = k := fun h => hne (h.symm.trans hk)
      have hk1 : ¬ key = k := fun h => hne h.symm
      simp [objSet, objGet, hk, hk0, hk1]
    · by_cases hkk : k0 = k
      · subst hkk
        simp [objSet, objGet, hk]
      · simp [objSet, objGet, hk, hkk, ih]

/-! ## Totals -/

theorem specSubtotal_nat (cart : List CartItem) (qty : String → ℕ)
    (hprice : ∀ item ∈ cart, ∃ p : ℕ, item.product.price = p) :
    ∃ N : ℕ, specSubtotal cart qty = N := by
  induction cart with
  | nil => exact ⟨0, by simp [specSubtotal]⟩
  | cons item rest ih =>
    obtain ⟨p, hp⟩ := hprice item (List.mem_cons_self _ _)
    obtain ⟨N, hN⟩ := ih (fun it hit => hprice it (List.mem_cons_of_mem _ hit))
    refine ⟨p * qty item._id + N, ?_⟩
    simp only [specSubtotal, List.map_cons, List.sum_cons] at hN ⊢
    rw [hN, hp]
    push_cast
    rfl

/-- The fold of `calculateTotal` over items with integer prices and
quantities is exact as long as the sum stays within `2 ^ 53`. -/
theorem foldl_subtotal (eq : List (String × JSNum)) (qty : String → ℕ)
    (cart : List CartItem)
    (hprice : ∀ item ∈ cart, ∃ p : ℕ, item.product.price = p)
    (h : ∀ item ∈ cart, objGet eq item._id = some (JSNum.num (qty item._id)))
    (acc : ℕ) (hbound : (acc : ℚ) + specSubtotal cart qty ≤ 2 ^ 53) :
    cart.foldl
        (fun sum item =>
          sum.add ((JSNum.num item.product.price).mul (numAt eq item._id)))
        (JSNum.num acc)
      = JSNum.num (acc + specSubtotal cart qty) := by
  induction cart generalizing acc with
  | nil => simp [specSubtotal]
  | cons item rest ih =>
    have hi := h item (List.mem_cons_self _ _)
    obtain ⟨p, hp⟩ := hprice item (List.mem_cons_self _ _)
    have hprest : ∀ it ∈ rest, ∃ p : ℕ, it.product.price = p :=
      fun it hit => hprice it (List.mem_cons_of_mem _ hit)
    have hrest : ∀ it ∈ rest, objGet eq it._id = some (JSNum.num (qty it._id)) :=
      fun it hit => h it (List.mem_cons_of_mem _ hit)
    obtain ⟨N, hN⟩ := specSubtotal_nat rest qty hprest
    have hsplit : specSubtotal (item :: rest) qty
        = ((p * qty item._id : ℕ) : ℚ) + specSubtotal rest qty := by
      simp only [specSubtotal, List.map_cons, List.sum_cons, hp]
      push_cast
      rfl
    rw [hsplit, hN] at hbound
    have hboundN : acc + p * qty item._id + N ≤ 2 ^ 53 := by
      have : ((acc + p * qty item._id + N : ℕ) : ℚ) ≤ ((2 ^ 53 : ℕ) : ℚ) := by
        push_cast at hbound ⊢
        linarith
      exact_mod_cast this
    have hprod : (JSNum.num item.product.price).mul (numAt eq item._id)
        = JSNum.num ((p * qty item._id : ℕ) : ℚ) := by
      have := roundF64_natCast (p * qty item._id) (by omega)
      simp only [numAt, hi, hp, JSNum.mul_num]
      rw [← this]
      push_cast
      rfl
    have hstep : (JSNum.num acc).add
        ((JSNum.num item.product.price).mul (numAt eq item._id))
        = JSNum.num ((acc + p * qty item._id : ℕ) : ℚ) := by
      have := roundF64_natCast (acc + p * qty item._id) (by omega)
      rw [hprod, JSNum.add_num, ← this]
      push_cast
      rfl
    rw [List.foldl_cons, hstep, ih hprest hrest (acc + p * qty item._id)
      (by rw [hN]; exact_mod_cast hboundN), hsplit]
    congr 1
    push_cast
    ring

/-- The totals of a cart holding a single item, before any arithmetic is
evaluated. -/
theorem calculateTotal_single (s : PageState) (item : CartItem) (h : s.cart = [item]) :
    calculateTotal s =
      { subtotal :=
          (JSNum.num 0).add
            ((JSNum.num item.product.price).mul (numAt s.editedQuantities item._id)),
        discount :=
          (((JSNum.num 0).add
            ((JSNum.num item.product.price).mul (numAt s.editedQuantities item._id))).mul
              (JSNum.num s.discount)).div100,
        total :=
          ((JSNum.num 0).add
            ((JSNum.num item.product.price).mul (numAt s.editedQuantities item._id))).sub
            (((JSNum.num 0).add
              ((JSNum.num item.product.price).mul (numAt s.editedQuantities item._id))).mul
                (JSNum.num s.discount)).div100 } := by
  simp only [calculateTotal, h, List.foldl_cons, List.foldl_nil]

theorem roundF64_bigProduct :
    roundF64 900719925474098500 = JSNum.num 900719925474098560 := by
  have h := roundF64_eval 900719925474098500 59 7036874417766395 (by norm_num) (by norm_num)
    (by rw [abs_of_pos (by norm_num)]; norm_num) (by rw [abs_of_pos (by norm_num)]; norm_num)
    (roundHalfEven_eq_of_near _ _ (by rw [abs_lt]; constructor <;> norm_num))
    (by rw [abs_lt]; constructor <;> norm_num)
  rw [h]
  norm_num

theorem roundF64_bigQuotient :
    roundF64 (900719925474098560 / 100) = JSNum.num 9007199254740986 := by
  have h := roundF64_eval (900719925474098560 / 100) 52 9007199254740986 (by norm_num)
    (by norm_num) (by rw [abs_of_pos (by norm_num)]; norm_num)
    (by rw [abs_of_pos (by norm_num)]; norm_num)
    (roundHalfEven_eq_of_near _ _ (by rw [abs_lt]; constructor <;> norm_num))
    (by rw [abs_lt]; constructor <;> norm_num)
  rw [h]
  norm_num

theorem roundF64_bigPrice : roundF64 9007199254740985 = JSNum.num 9007199254740985 := by
  simpa using roundF64_natCast 9007199254740985 (by norm_num)

theorem roundF64_negOne : roundF64 (-1) = JSNum.num (-1) := by
  simpa using roundF64_intCast (-1) (by norm_num)

theorem bigState_discount : bigState.discount = 100 := by
  simp [bigState, selectVendor, fetchVendors, applyVendorDiscount, fullDiscountVendor]

theorem bigState_cart : bigState.cart = [bigItem] := by
  simp [bigState, selectVendor, fetchVendors, storeCart]

theorem bigState_quantity : numAt bigState.editedQuantities "c9" = JSNum.num 1 := by
  simp [bigState, selectVendor, fetchVendors, storeCart, initialState, initQuantities,
    bigItem, objSet, objGet, numAt]

theorem bigItem_id : bigItem._id = "c9" := by
  simp [bigItem]

theorem bigItem_price : bigItem.product.price = 9007199254740985 := by
  simp [bigItem]

theorem bigState_subtotal :
    (JSNum.num 0).add ((JSNum.num 9007199254740985).mul (JSNum.num 1))
      = JSNum.num 9007199254740985 := by
  simp only [JSNum.mul_num, JSNum.add_num, mul_one, zero_add, roundF64_bigPrice]

theorem bigState_discountAmount :
    ((JSNum.num 9007199254740985).mul (JSNum.num 100)).div100
      = JSNum.num 9007199254740986 := by
  have hmul : (9007199254740985 : ℚ) * 100 = 900719925474098500 := by norm_num
  simp only [JSNum.mul_num, JSNum.div100_num, hmul, roundF64_bigProduct, roundF64_bigQuotient]

theorem bigState_total :
    (JSNum.num 9007199254740985).sub (JSNum.num 9007199254740986) = JSNum.num (-1) := by
  have hsubv : (9007199254740985 : ℚ) - 9007199254740986 = -1 := by norm_num
  simp only [JSNum.sub_num, hsubv, roundF64_negOne]

theorem bigState_unfolded :
    calculateTotal bigState =
      { subtotal := (JSNum.num 0).add ((JSNum.num 9007199254740985).mul (JSNum.num 1)),
        discount :=
          (((JSNum.num 0).add ((JSNum.num 9007199254740985).mul (JSNum.num 1))).mul
            (JSNum.num 100)).div100,
        total :=
          ((JSNum.num 0).add ((JSNum.num 9007199254740985).mul (JSNum.num 1))).sub
            (((JSNum.num 0).add ((JSNum.num 9007199254740985).mul (JSNum.num 1))).mul
              (JSNum.num 100)).div100 } := by
  rw [calculateTotal_single bigState bigItem bigState_cart, bigItem_id, bigItem_price,
    bigState_quantity, bigState_discount]

theorem bigState_totals :
    calculateTotal bigState =
      { subtotal := JSNum.num 9007199254740985,
        discount := JSNum.num 9007199254740986,
        total := JSNum.num (-1) } := by
  rw [bigState_unfolded, bigState_subtotal, bigState_discountAmount, bigState_total]

/-- C1, as stated, fails: with one item of unit price 9007199254740985 and
quantity 1 and a 100% discount, the product subtotal × 100 is rounded to
900719925474098560, so the discount amount is 9007199254740986 instead of
subtotal × 100 / 100 = 9007199254740985, and the total is -1, below 0. -/
theorem calculateTotal_rounds :
    calculateTotal bigState =
        { subtotal := JSNum.num 9007199254740985,
          discount := JSNum.num 9007199254740986,
          total := JSNum.num (-1) }
      ∧ (calculateTotal bigState).discount
          ≠ JSNum.num (9007199254740985 * bigState.discount / 100)
      ∧ bigState.discount = 100
      ∧ (calculateTotal bigState).total.lt (JSNum.num 0) = true := by
  refine ⟨bigState_totals, ?_, bigState_discount, ?_⟩
  · rw [bigState_totals, bigState_discount]
    norm_num
  · rw [bigState_totals]
    simp [JSNum.lt_num]

/-- C1, amended. For every cart whose items have nonnegative integer unit
prices and positive integer edited quantities, with subtotal S = the sum of
price × edited quantity at most `2 ^ 53`, and every integer discount
percentage d with |S × d| at most `2 ^ 53`: `calculateTotal` returns subtotal
= S, discount amount = S × d / 100 rounded to binary64 and total = subtotal −
discount amount rounded to binary64; when d lies in [0, 100] and S × d / 100
is an integer, these are exactly S × d / 100 and S − S × d / 100; and the
total is a finite number at least 0 whenever d lies in [0, 100]. -/
theorem calculateTotal_spec (s : PageState) (qty : String → ℕ) (d : ℤ)
    (hprice : ∀ item ∈ s.cart, ∃ p : ℕ, item.product.price = p)
    (hqty : ∀ item ∈ s.cart,
      0 < qty item._id ∧
        objGet s.editedQuantities item._id = some (JSNum.num (qty item._id)))
    (hd : s.discount = d)
    (hS : specSubtotal s.cart qty ≤ 2 ^ 53)
    (hSd : |specSubtotal s.cart qty * d| ≤ 2 ^ 53) :
    calculateTotal s =
        { subtotal := JSNum.num (specSubtotal s.cart qty),
          discount := roundF64 (specSubtotal s.cart qty * d / 100),
          total := (JSNum.num (specSubtotal s.cart qty)).sub
            (roundF64 (specSubtotal s.cart qty * d / 100)) }
      ∧ (0 ≤ d → d ≤ 100 → (∃ m : ℤ, specSubtotal s.cart qty * d / 100 = m) →
          calculateTotal s =
            { subtotal := JSNum.num (specSubtotal s.cart qty),
              discount := JSNum.num (specSubtotal s.cart qty * d / 100),
              total := JSNum.num
                (specSubtotal s.cart qty - specSubtotal s.cart qty * d / 100) })
      ∧ (0 ≤ d → d ≤ 100 →
          ∃ t : ℚ, (calculateTotal s).total = JSNum.num t ∧ 0 ≤ t) := by
  obtain ⟨N, hN⟩ := specSubtotal_nat s.cart qty hprice
  have hfold := foldl_subtotal s.editedQuantities qty s.cart hprice
    (fun item hi => (hqty item hi).2) 0 (by simpa using hS)
  simp only [Nat.cast_zero, zero_add] at hfold
  have hNle : (N : ℚ) ≤ 2 ^ 53 := by rw [← hN]; exact hS
  have hNleZ : (N : ℤ) ≤ 2 ^ 53 := by exact_mod_cast hNle
  have hprodZ : |(N : ℤ) * d| ≤ 2 ^ 53 := by
    have : |((N : ℤ) * d : ℤ)| ≤ ((2 ^ 53 : ℤ)) := by
      have h2 : |((((N : ℤ) * d : ℤ)) : ℚ)| ≤ 2 ^ 53 := by
        push_cast
        rw [← hN]
        exact hSd
      exact_mod_cast h2
    exact this
  have hprod : roundF64 ((N : ℚ) * d) = JSNum.num ((N : ℚ) * d) := by
    have := roundF64_intCast ((N : ℤ) * d) hprodZ
    push_cast at this
    exact this
  have hmain : calculateTotal s =
      { subtotal := JSNum.num (specSubtotal s.cart qty),
        discount := roundF64 (specSubtotal s.cart qty * d / 100),
        total := (JSNum.num (specSubtotal s.cart qty)).sub
          (roundF64 (specSubtotal s.cart qty * d / 100)) } := by
    simp only [calculateTotal, hfold, hd]
    rw [hN]
    simp only [JSNum.mul_num, hprod, JSNum.div100_num]
  refine ⟨hmain, ?_, ?_⟩
  · intro h0 h100 hm
    obtain ⟨m, hm⟩ := hm
    rw [hN] at hm
    have h0Q : (0 : ℚ) ≤ d := by exact_mod_cast h0
    have h100Q : (d : ℚ) ≤ 100 := by exact_mod_cast h100
    have hNQ : (0 : ℚ) ≤ N := Nat.cast_nonneg N
    have hm0 : (0 : ℚ) ≤ m := by
      rw [← hm]
      exact div_nonneg (mul_nonneg hNQ h0Q) (by norm_num)
    have hmN : (m : ℚ) ≤ N := by
      rw [← hm, div_le_iff₀ (by norm_num)]
      exact mul_le_mul_of_nonneg_left h100Q hNQ
    have hm0Z : 0 ≤ m := by exact_mod_cast hm0
    have hmNZ : m ≤ N := by exact_mod_cast hmN
    have hdisc : roundF64 (m : ℚ) = JSNum.num m :=
      roundF64_intCast m (by rw [abs_of_nonneg hm0Z]; omega)
    have htot : roundF64 (((N : ℤ) - m : ℤ) : ℚ) = JSNum.num (((N : ℤ) - m : ℤ) : ℚ) :=
      roundF64_intCast ((N : ℤ) - m) (by rw [abs_of_nonneg (by omega)]; omega)
    push_cast at htot
    rw [hmain, hN, hm, hdisc, JSNum.sub_num, htot]
  · intro h0 h100
    rw [hmain, hN]
    have h0Q : (0 : ℚ) ≤ d := by exact_mod_cast h0
    have h100Q : (d : ℚ) ≤ 100 := by exact_mod_cast h100
    have hNQ : (0 : ℚ) ≤ N := Nat.cast_nonneg N
    have hx0 : (0 : ℚ) ≤ (N : ℚ) * d / 100 := div_nonneg (mul_nonneg hNQ h0Q) (by norm_num)
    have hxN : (N : ℚ) * d / 100 ≤ ((N : ℤ) : ℚ) := by
      rw [div_le_iff₀ (by norm_num)]
      push_cast
      exact mul_le_mul_of_nonneg_left h100Q hNQ
    have hdisc : ∃ y : ℚ, roundF64 ((N : ℚ) * d / 100) = JSNum.num y ∧ 0 ≤ y ∧ y ≤ N := by
      rcases eq_or_lt_of_le hx0 with hz | hpos
      · refine ⟨0, ?_, le_refl _, hNQ⟩
        rw [← hz, roundF64_zero]
      · obtain ⟨y, hy, hy0, hyN⟩ := roundF64_le_int _ (N : ℤ) hpos hxN hNleZ
        exact ⟨y, hy, hy0, by simpa using hyN⟩
    obtain ⟨y, hy, hy0, hyN⟩ := hdisc
    rw [hy, JSNum.sub_num]
    have hdiff0 : (0 : ℚ) ≤ (N : ℚ) - y := by linarith
    rcases eq_or_lt_of_le hdiff0 with hz | hpos
    · refine ⟨0, ?_, le_refl _⟩
      rw [← hz, roundF64_zero]
    · have hle : (N : ℚ) - y ≤ ((N : ℤ) : ℚ) := by
        push_cast
        linarith
      obtain ⟨t, ht, ht0, _⟩ := roundF64_le_int _ (N : ℤ) hpos hle hNleZ
      exact ⟨t, ht, ht0⟩

/-- The scenario of the specification: one item of price 100 and quantity 2
with a 10% discount gives subtotal 200, discount 20 and total 180. -/
theorem calculateTotal_scenario :
    calculateTotal scenarioState =
      { subtotal := JSNum.num 200, discount := JSNum.num 20, total := JSNum.num 180 } := by
  have hcart : scenarioState.cart = [scenarioItem] := rfl
  have hdisc : scenarioState.discount = ((10 : ℤ) : ℚ) := by
    simp [scenarioState, selectVendor, fetchVendors, applyVendorDiscount, scenarioVendor,
      plainVendor]
  have hsub : specSubtotal scenarioState.cart (fun _ => 2) = 200 := by
    simp [hcart, specSubtotal, scenarioItem]
    norm_num
  have h := (calculateTotal_spec scenarioState (fun _ => 2) 10
    (by intro item hi
        rw [hcart, List.mem_singleton] at hi
        subst hi
        exact ⟨100, by simp [scenarioItem]⟩)
    (by intro item hi
        rw [hcart, List.mem_singleton] at hi
        subst hi
        simp [scenarioState, selectVendor, fetchVendors, storeCart, initialState,
          initQuantities, scenarioItem, objSet, objGet])
    hdisc
    (by rw [hsub]; norm_num)
    (by rw [hsub]; norm_num)).2.1 (by norm_num) (by norm_num)
    ⟨20, by rw [hsub]; norm_num⟩
  rw [h, hsub]
  norm_num

/-! ## Quantity editor -/

theorem handleQuantityChange_of_lt (s : PageState) (id : String) (qty : JSNum)
    (h : qty.lt (JSNum.num 1) = true) : handleQuantityChange s id qty = s := by
  rw [handleQuantityChange, if_pos h]

theorem handleQuantityChange_of_not_lt (s : PageState) (id : String) (qty : JSNum)
    (h : qty.lt (JSNum.num 1) = false) :
    (handleQuantityChange s id qty).editedQuantities = objSet s.editedQuantities id qty := by
  rw [handleQuantityChange, if_neg (by rw [h]; simp)]

theorem JSNum.le_of_not_lt (qty : JSNum) (hqty : qty ≠ JSNum.nan)
    (h : qty.lt (JSNum.num 1) = false) : (JSNum.num 1).le qty = true := by
  cases qty with
  | num q =>
    rw [JSNum.lt_num] at h
    rw [JSNum.le_num]
    simpa using h
  | posInf => rfl
  | negInf => exact absurd h (by simp [JSNum.lt])
  | nan => exact absurd rfl hqty

theorem scenarioState_quantities :
    scenarioState.editedQuantities = [("c1", JSNum.num 2)] := by
  simp [scenarioState, selectVendor, fetchVendors, storeCart, initialState, initQuantities,
    scenarioItem, objSet]

theorem scenarioState_min (k : String) (v : JSNum)
    (hk : objGet scenarioState.editedQuantities k = some v) : (JSNum.num 1).le v = true := by
  rw [scenarioState_quantities] at hk
  simp only [objGet] at hk
  split at hk
  · rw [← Option.some.inj hk, JSNum.le_num]
    norm_num
  · exact absurd hk (by simp)

/-- C6, as stated, fails: in the scenario state every entry of the
edited-quantity map is at least 1, yet `handleQuantityChange` with the
requested quantity `NaN` stores `NaN` (the guard `NaN < 1` is false), and
`NaN` is not at least 1.  The increment button passes `NaN` when the item has
no entry: `undefined + 1`. -/
theorem handleQuantityChange_stores_nan :
    (∀ k v, objGet scenarioState.editedQuantities k = some v → (JSNum.num 1).le v = true)
      ∧ objGet (handleQuantityChange scenarioState "c1" JSNum.nan).editedQuantities "c1"
          = some JSNum.nan
      ∧ (JSNum.num 1).le JSNum.nan = false
      ∧ clickIncrement (initialState [scenarioItem]) scenarioItem
          = handleQuantityChange (initialState [scenarioItem]) "c1" JSNum.nan := by
  refine ⟨scenarioState_min, ?_, rfl, ?_⟩
  · rw [handleQuantityChange_of_not_lt scenarioState "c1" JSNum.nan rfl, objGet_objSet_same]
  · simp [clickIncrement, initialState, numAt, objGet, JSNum.add, scenarioItem]

/-- C6, amended. From an edited-quantity map whose entries are all at least 1,
`handleQuantityChange` with any id and any requested quantity other than `NaN`
yields a map whose entries are all at least 1; a request below 1 leaves the
state unchanged, and otherwise the entry of that id is the requested quantity
and every other entry is unchanged. -/
theorem handleQuantityChange_keeps_min (s : PageState) (id : String) (qty : JSNum)
    (hqty : qty ≠ JSNum.nan)
    (hmin : ∀ k v, objGet s.editedQuantities k = some v → (JSNum.num 1).le v = true) :
    (∀ k v, objGet (handleQuantityChange s id qty).editedQuantities k = some v →
        (JSNum.num 1).le v = true)
      ∧ (qty.lt (JSNum.num 1) = true → handleQuantityChange s id qty = s)
      ∧ (qty.lt (JSNum.num 1) = false →
          objGet (handleQuantityChange s id qty).editedQuantities id = some qty
            ∧ ∀ k, k ≠ id →
                objGet (handleQuantityChange s id qty).editedQuantities k
                  = objGet s.editedQuantities k) := by
  cases hlt : qty.lt (JSNum.num 1) with
  | true =>
    have hnop := handleQuantityChange_of_lt s id qty hlt
    refine ⟨?_, fun _ => hnop, fun h => absurd h (by simp)⟩
    rw [hnop]
    exact hmin
  | false =>
    have hset := handleQuantityChange_of_not_lt s id qty hlt
    rw [hset]
    refine ⟨?_, fun h => absurd h (by simp), fun _ => ⟨objGet_objSet_same _ _ _, ?_⟩⟩
    · intro k v hk
      by_cases hkid : k = id
      · subst hkid
        rw [objGet_objSet_same] at hk
        rw [← Option.some.inj hk]
        exact JSNum.le_of_not_lt qty hqty hlt
      · rw [objGet_objSet_other _ _ _ _ hkid] at hk
        exact hmin k v hk
    · intro k hkid
      exact objGet_objSet_other _ _ _ _ hkid

/-- A request of 0 on the scenario item is ignored and a request of 3 is
stored, in a state whose entries are all at least 1. -/
theorem handleQuantityChange_keeps_min_scenario :
    handleQuantityChange scenarioState "c1" (JSNum.num 0) = scenarioState
      ∧ objGet (handleQuantityChange scenarioState "c1" (JSNum.num 3)).editedQuantities "c1"
          = some (JSNum.num 3) := by
  have h0 := handleQuantityChange_keeps_min scenarioState "c1" (JSNum.num 0) (by simp)
    scenarioState_min
  have h3 := handleQuantityChange_keeps_min scenarioState "c1" (JSNum.num 3) (by simp)
    scenarioState_min
  exact ⟨h0.2.1 (by rw [JSNum.lt_num]; norm_num),
    (h3.2.2 (by rw [JSNum.lt_num]; norm_num)).1⟩

theorem clickIncrement_of_entry (s : PageState) (item : CartItem) (q : ℚ)
    (h : objGet s.editedQuantities item._id = some (JSNum.num q)) :
    clickIncrement s item = handleQuantityChange s item._id (roundF64 (q + 1)) := by
  rw [clickIncrement, numAt, h, JSNum.add_num]

theorem clickDecrement_of_entry (s : PageState) (item : CartItem) (q : ℚ)
    (h : objGet s.editedQuantities item._id = some (JSNum.num q)) (hq : 1 < q) :
    clickDecrement s item = handleQuantityChange s item._id (roundF64 (q - 1)) := by
  have hdis : decrementDisabled s item = false := by
    rw [decrementDisabled, numAt, h, JSNum.le_num]
    simpa using hq
  rw [clickDecrement, if_neg (by rw [hdis]; simp), numAt, h, JSNum.sub_num]

theorem clickDecrement_of_one (s : PageState) (item : CartItem)
    (h : objGet s.editedQuantities item._id = some (JSNum.num 1)) :
    clickDecrement s item = s := by
  have hdis : decrementDisabled s item = true := by
    rw [decrementDisabled, numAt, h, JSNum.le_num]
    simp
  rw [clickDecrement, if_pos hdis]

theorem editorState_quantity :
    objGet editorState.editedQuantities "c1" = some (JSNum.num 5) := by
  have hlt : (JSNum.num 5).lt (JSNum.num 1) = false := by
    rw [JSNum.lt_num]
    norm_num
  rw [editorState, handleQuantityChange_of_not_lt _ _ _ hlt, objGet_objSet_same]

theorem bigEditorState_quantity :
    objGet bigEditorState.editedQuantities "c1" = some (JSNum.num 9007199254740992) := by
  have hlt : (JSNum.num 9007199254740992).lt (JSNum.num 1) = false := by
    rw [JSNum.lt_num]
    norm_num
  rw [bigEditorState, handleQuantityChange_of_not_lt _ _ _ hlt, objGet_objSet_same]

theorem roundF64_two_pow_53_succ :
    roundF64 (9007199254740992 + 1) = JSNum.num 9007199254740992 := by
  have hn : roundHalfEven ((9007199254740992 + 1 : ℚ) / 2 ^ ((53 : ℤ) - 52))
      = 4503599627370496 := by
    have := roundHalfEven_tie_even 4503599627370496 (by norm_num)
    norm_num at this ⊢
    exact this
  have h := roundF64_eval (9007199254740992 + 1) 53 4503599627370496 (by norm_num)
    (by norm_num) (by rw [abs_of_pos (by norm_num)]; norm_num)
    (by rw [abs_of_pos (by norm_num)]; norm_num) hn
    (by rw [abs_lt]; constructor <;> norm_num)
  rw [h]
  norm_num

/-- C5, as stated, fails, in two ways.  With edited quantity 5, typing -3 into
the quantity input requests n = -3 (`parseInt` gives -3, which is truthy), and
the stored quantity stays 5 instead of becoming max(1, -3) = 1.  With edited
quantity `2 ^ 53`, a click on increment computes `2 ^ 53 + 1`, which rounds
to `2 ^ 53`, and the stored quantity stays `2 ^ 53` instead of becoming
max(1, `2 ^ 53 + 1`). -/
theorem changeQuantityInput_does_not_clamp :
    objGet editorState.editedQuantities "c1" = some (JSNum.num 5)
      ∧ (JSNum.num (-3)).orElse (JSNum.num 1) = JSNum.num (-3)
      ∧ objGet (changeQuantityInput editorState scenarioItem (JSNum.num (-3))).editedQuantities
          "c1" = some (JSNum.num 5)
      ∧ objGet (changeQuantityInput editorState scenarioItem (JSNum.num (-3))).editedQuantities
          "c1" ≠ some (JSNum.num (max 1 (-3)))
      ∧ objGet bigEditorState.editedQuantities "c1" = some (JSNum.num 9007199254740992)
      ∧ objGet (clickIncrement bigEditorState scenarioItem).editedQuantities "c1"
          = some (JSNum.num 9007199254740992)
      ∧ objGet (clickIncrement bigEditorState scenarioItem).editedQuantities "c1"
          ≠ some (JSNum.num (max 1 (9007199254740992 + 1))) := by
  have h5 := editorState_quantity
  have hor : (JSNum.num (-3)).orElse (JSNum.num 1) = JSNum.num (-3) := by
    simp [JSNum.orElse, JSNum.truthy]
  have hlt : (JSNum.num (-3)).lt (JSNum.num 1) = true := by
    rw [JSNum.lt_num]
    norm_num
  have hnop : changeQuantityInput editorState scenarioItem (JSNum.num (-3)) = editorState := by
    rw [changeQuantityInput, hor, handleQuantityChange_of_lt _ _ _ hlt]
  have hbig := bigEditorState_quantity
  have hid : scenarioItem._id = "c1" := rfl
  have hinc : objGet (clickIncrement bigEditorState scenarioItem).editedQuantities "c1"
      = some (JSNum.num 9007199254740992) := by
    have hlt2 : (JSNum.num 9007199254740992).lt (JSNum.num 1) = false := by
      rw [JSNum.lt_num]
      norm_num
    rw [clickIncrement_of_entry bigEditorState scenarioItem 9007199254740992
      (by rw [hid]; exact hbig), roundF64_two_pow_53_succ,
      handleQuantityChange_of_not_lt _ _ _ hlt2, hid, objGet_objSet_same]
  refine ⟨h5, hor, ?_, ?_, hbig, hinc, ?_⟩
  · rw [hnop]; exact h5
  · rw [hnop, h5]
    intro h
    have h2 := JSNum.num.inj (Option.some.inj h)
    norm_num at h2
  · rw [hinc]
    intro h
    have h2 := JSNum.num.inj (Option.some.inj h)
    norm_num at h2

/-- C5, amended. For an item whose edited quantity is an integer q with
1 ≤ q < `2 ^ 53`: after a click on increment the stored quantity is
max(1, q + 1); after a click on decrement it is max(1, q − 1); after a direct
entry, with n the value of `parseInt(text) || 1` (so 0 and `NaN` give n = 1),
it is n when n ≥ 1 and stays q when n < 1. -/
theorem quantity_editor_min (s : PageState) (item : CartItem) (q : ℤ) (hq : 1 ≤ q)
    (hbound : q < 2 ^ 53)
    (hcur : objGet s.editedQuantities item._id = some (JSNum.num q)) :
    objGet (clickIncrement s item).editedQuantities item._id
        = some (JSNum.num ((max 1 (q + 1) : ℤ) : ℚ))
      ∧ objGet (clickDecrement s item).editedQuantities item._id
          = some (JSNum.num ((max 1 (q - 1) : ℤ) : ℚ))
      ∧ (∀ p : ℤ,
          (JSNum.num p).orElse (JSNum.num 1) = JSNum.num ((if p = 0 then 1 else p : ℤ) : ℚ)
            ∧ objGet (changeQuantityInput s item (JSNum.num p)).editedQuantities item._id
                = some (JSNum.num
                    ((if 1 ≤ (if p = 0 then 1 else p) then (if p = 0 then 1 else p) else q : ℤ) : ℚ)))
      ∧ objGet (changeQuantityInput s item JSNum.nan).editedQuantities item._id
          = some (JSNum.num 1) := by
  have hqQ : (1 : ℚ) ≤ (q : ℚ) := by exact_mod_cast hq
  have hone : (JSNum.num 1).lt (JSNum.num 1) = false := by
    rw [JSNum.lt_num]
    norm_num
  refine ⟨?_, ?_, ?_, ?_⟩
  · have hround : roundF64 ((q : ℚ) + 1) = JSNum.num ((q : ℚ) + 1) := by
      have := roundF64_intCast (q + 1) (by rw [abs_of_nonneg (by omega)]; omega)
      push_cast at this
      exact this
    have hlt : (JSNum.num ((q : ℚ) + 1)).lt (JSNum.num 1) = false := by
      rw [JSNum.lt_num]
      simp only [decide_eq_false_iff_not, not_lt]
      linarith
    have hmax : max 1 (q + 1) = q + 1 := max_eq_right (by omega)
    rw [clickIncrement_of_entry s item q hcur, hround,
      handleQuantityChange_of_not_lt _ _ _ hlt, objGet_objSet_same, hmax]
    push_cast
    rfl
  · by_cases h1 : q = 1
    · subst h1
      have hcur1 : objGet s.editedQuantities item._id = some (JSNum.num 1) := by
        simpa using hcur
      rw [clickDecrement_of_one s item hcur1, hcur]
      simp
    · have h2 : (2 : ℤ) ≤ q := by omega
      have h2Q : (2 : ℚ) ≤ (q : ℚ) := by exact_mod_cast h2
      have hround : roundF64 ((q : ℚ) - 1) = JSNum.num ((q : ℚ) - 1) := by
        have := roundF64_intCast (q - 1) (by rw [abs_of_nonneg (by omega)]; omega)
        push_cast at this
        exact this
      have hlt : (JSNum.num ((q : ℚ) - 1)).lt (JSNum.num 1) = false := by
        rw [JSNum.lt_num]
        simp only [decide_eq_false_iff_not, not_lt]
        linarith
      have hmax : max 1 (q - 1) = q - 1 := max_eq_right (by omega)
      rw [clickDecrement_of_entry s item q hcur (by linarith), hround,
        handleQuantityChange_of_not_lt _ _ _ hlt, objGet_objSet_same, hmax]
      push_cast
      rfl
  · intro p
    by_cases hp0 : p = 0
    · subst hp0
      have hor : (JSNum.num ((0 : ℤ) : ℚ)).orElse (JSNum.num 1) = JSNum.num 1 := by
        simp [JSNum.orElse, JSNum.truthy]
      refine ⟨by simpa using hor, ?_⟩
      rw [changeQuantityInput, hor, handleQuantityChange_of_not_lt _ _ _ hone,
        objGet_objSet_same]
      simp
    · have hpQ : ¬ ((p : ℚ) = 0) := by exact_mod_cast hp0
      have hor : (JSNum.num p).orElse (JSNum.num 1) = JSNum.num p := by
        simp [JSNum.orElse, JSNum.truthy, hpQ]
      refine ⟨by simp [hor, hp0], ?_⟩
      rw [changeQuantityInput, hor]
      simp only [hp0, if_false]
      by_cases hp1 : 1 ≤ p
      · have hlt : (JSNum.num (p : ℚ)).lt (JSNum.num 1) = false := by
          rw [JSNum.lt_num]
          simp only [decide_eq_false_iff_not, not_lt]
          exact_mod_cast hp1
        rw [handleQuantityChange_of_not_lt _ _ _ hlt, objGet_objSet_same, if_pos hp1]
      · have hlt : (JSNum.num (p : ℚ)).lt (JSNum.num 1) = true := by
          rw [JSNum.lt_num]
          simp only [decide_eq_true_eq]
          have : p < 1 := by omega
          exact_mod_cast this
        rw [handleQuantityChange_of_lt _ _ _ hlt, if_neg hp1, hcur]
  · have hor : JSNum.nan.orElse (JSNum.num 1) = JSNum.num 1 := by
      simp [JSNum.orElse, JSNum.truthy]
    rw [changeQuantityInput, hor, handleQuantityChange_of_not_lt _ _ _ hone,
      objGet_objSet_same]

/-- The amended editor rule at edited quantity 5: increment stores 6, decrement
stores 4, typing 7 stores 7 and typing -3 leaves 5. -/
theorem quantity_editor_min_scenario :
    objGet (clickIncrement editorState scenarioItem).editedQuantities "c1"
        = some (JSNum.num 6)
      ∧ objGet (clickDecrement editorState scenarioItem).editedQuantities "c1"
          = some (JSNum.num 4)
      ∧ objGet (changeQuantityInput editorState scenarioItem (JSNum.num 7)).editedQuantities
          "c1" = some (JSNum.num 7)
      ∧ objGet (changeQuantityInput editorState scenarioItem (JSNum.num (-3))).editedQuantities
          "c1" = some (JSNum.num 5) := by
  have hcur : objGet editorState.editedQuantities scenarioItem._id
      = some (JSNum.num ((5 : ℤ) : ℚ)) := by
    have hid : scenarioItem._id = "c1" := rfl
    rw [hid, editorState_quantity]
    norm_num
  have h := quantity_editor_min editorState scenarioItem 5 (by norm_num) (by norm_num) hcur
  have hid : scenarioItem._id = "c1" := rfl
  rw [hid] at h
  refine ⟨?_, ?_, ?_, ?_⟩
  · have := h.1
    norm_num at this
    exact this
  · have := h.2.1
    norm_num at this
    exact this
  · have := (h.2.2.1 7).2
    norm_num at this
    exact this
  · have := (h.2.2.1 (-3)).2
    norm_num at this
    exact this

/-! ## Vendor discount -/

/-- C8. For every vendor list and every selected id, the applied discount is
the discount field of the (first) vendor whose `_id` equals the selected id,
and 0 when that vendor has no discount field; it is 0 as well when no vendor
of the list has the selected id.  Selecting a vendor stores that value. -/
theorem applyVendorDiscount_spec (vendors : List Vendor) (selected : String) :
    (∀ (before after : List Vendor) (v : Vendor),
        vendors = before ++ v :: after → v._id = selected →
        (∀ w ∈ before, w._id ≠ selected) →
        applyVendorDiscount vendors selected = v.discount.getD 0)
      ∧ ((∀ w ∈ vendors, w._id ≠ selected) → applyVendorDiscount vendors selected = 0)
      ∧ (∀ s : PageState, s.vendors = vendors →
          (selectVendor s selected).discount = applyVendorDiscount vendors selected) := by
  refine ⟨?_, ?_, ?_⟩
  · intro before after v hv hid hbefore
    have hfind : vendors.find? (fun v => decide (v._id = selected)) = some v := by
      rw [hv, List.find?_append]
      have hnone : List.find? (fun v => decide (v._id = selected)) before = none := by
        rw [List.find?_eq_none]
        intro w hw
        simpa using hbefore w hw
      simp [hnone, hid]
    unfold applyVendorDiscount
    rw [hfind]
    cases hd : v.discount with
    | none => simp [hd]
    | some d =>
      by_cases h0 : d = 0
      · simp [hd, h0]
      · simp [hd, h0]
  · intro hnone
    have hfind : vendors.find? (fun v => decide (v._id = selected)) = none := by
      rw [List.find?_eq_none]
      intro w hw
      simpa using hnone w hw
    unfold applyVendorDiscount
    rw [hfind]
  · intro s hs
    simp [selectVendor, hs]

/-- With the vendors of the scenario: selecting the 10% vendor applies 10,
selecting the vendor without a discount field applies 0, and the empty
selection applies 0. -/
theorem applyVendorDiscount_scenario :
    applyVendorDiscount [scenarioVendor, plainVendor] "v1" = 10
      ∧ applyVendorDiscount [scenarioVendor, plainVendor] "v2" = 0
      ∧ applyVendorDiscount [scenarioVendor, plainVendor] "" = 0 := by
  refine ⟨?_, ?_, ?_⟩
  · exact (applyVendorDiscount_spec [scenarioVendor, plainVendor] "v1").1
      [] [plainVendor] scenarioVendor rfl rfl (by simp)
  · exact (applyVendorDiscount_spec [scenarioVendor, plainVendor] "v2").1
      [scenarioVendor] [] plainVendor rfl rfl (by simp [scenarioVendor])
  · exact (applyVendorDiscount_spec [scenarioVendor, plainVendor] "").2.1
      (by simp [scenarioVendor, plainVendor])

/-! ## Item removal -/

/-- C9. For every prior state and every id: when the delete request fails the
error is "Failed to delete.", `fetchCart` is not called, the cart and the
edited quantities are unchanged, and the flag of the id ends false; when the
request succeeds `fetchCart` is called right after it and the flag of the id
ends false, whatever the outcome of `fetchCart`. -/
theorem handleDelete_outcomes (s : PageState) (id : String)
    (fetched : Option (List CartItem)) :
    ((handleDelete s id false fetched).error = some "Failed to delete."
        ∧ (handleDelete s id false fetched).calls = s.calls ++ [Call.deleteReq id]
        ∧ (handleDelete s id false fetched).cart = s.cart
        ∧ (handleDelete s id false fetched).editedQuantities = s.editedQuantities
        ∧ objGet (handleDelete s id false fetched).itemsBeingDeleted id = some false)
      ∧ ((handleDelete s id true fetched).calls
            = s.calls ++ [Call.deleteReq id, Call.fetchCart]
          ∧ objGet (handleDelete s id true fetched).itemsBeingDeleted id = some false) := by
  refine ⟨⟨?_, ?_, ?_, ?_, ?_⟩, ?_, ?_⟩
  · simp [handleDelete, handleDeleteSettle, handleDeleteStart]
  · simp [handleDelete, handleDeleteSettle, handleDeleteStart]
  · simp [handleDelete, handleDeleteSettle, handleDeleteStart]
  · simp [handleDelete, handleDeleteSettle, handleDeleteStart]
  · simp [handleDelete, handleDeleteSettle, handleDeleteStart, objGet_objSet_same]
  · cases fetched <;> simp [handleDelete, handleDeleteSettle, handleDeleteStart, storeCart]
  · cases fetched <;>
      simp [handleDelete, handleDeleteSettle, handleDeleteStart, storeCart, objGet_objSet_same]

/-! ## Checkout -/

/-- C10. In every page state, when the "Proceed to Checkout" button is in the
view it is disabled exactly when `selectedVendor` is the empty selection; a
click opens the modal only from a state with a non-empty selection, and does
open it from every state with a non-empty cart, checkout not done and a
non-empty selection. -/
theorem checkout_requires_vendor (s : PageState) :
    (∀ d, (render s).checkoutDisabled = some d → (d = true ↔ s.selectedVendor = ""))
      ∧ (∀ t, clickCheckout s = some t →
          s.selectedVendor ≠ "" ∧ t = openModal s ∧ t.modalOpen = true)
      ∧ (s.cart ≠ [] → s.checkoutDone = false → s.selectedVendor ≠ "" →
          clickCheckout s = some (openModal s)) := by
  have hview : (render s).checkoutDisabled
      = if s.cart.length = 0 then none
        else if s.checkoutDone then none else some (decide (s.selectedVendor = "")) := by
    by_cases hc : s.cart.length = 0
    · simp [render, View.checkoutDisabled, hc]
    · cases hd : s.checkoutDone <;>
        simp [render, View.checkoutDisabled, hc, primaryAction, hd]
  refine ⟨?_, ?_, ?_⟩
  · intro d hd
    rw [hview] at hd
    split at hd
    · exact absurd hd (by simp)
    · split at hd
      · exact absurd hd (by simp)
      · have := Option.some.inj hd
        rw [← this]
        simp
  · intro t ht
    unfold clickCheckout at ht
    rw [hview] at ht
    by_cases hc : s.cart.length = 0
    · simp [hc] at ht
    · cases hd : s.checkoutDone
      · by_cases hv : s.selectedVendor = ""
        · simp [hc, hd, hv] at ht
        · simp [hc, hd, hv] at ht
          exact ⟨hv, ht.symm, by rw [← ht]; rfl⟩
      · simp [hc, hd] at ht
  · intro hcart hdone hsel
    have hc : ¬ s.cart.length = 0 := by
      intro h
      exact hcart (List.length_eq_zero.mp h)
    unfold clickCheckout
    rw [hview]
    simp [hc, hdone, hsel]

/-- In the scenario state (a vendor is selected) the button is enabled and a
click opens the modal; before any vendor is selected the button is disabled
and a click does nothing. -/
theorem checkout_requires_vendor_scenario :
    clickCheckout scenarioState = some (openModal scenarioState)
      ∧ (render (storeCart (initialState [scenarioItem]) [scenarioItem])).checkoutDisabled
          = some true
      ∧ clickCheckout (storeCart (initialState [scenarioItem]) [scenarioItem]) = none := by
  refine ⟨?_, ?_, ?_⟩
  · exact (checkout_requires_vendor scenarioState).2.2
      (by simp [scenarioState, selectVendor, fetchVendors, storeCart])
      (by simp [scenarioState, selectVendor, fetchVendors, storeCart, initialState])
      (by simp [scenarioState, selectVendor, fetchVendors])
  · simp [render, View.checkoutDisabled, storeCart, initialState, primaryAction]
  · simp [clickCheckout, render, View.checkoutDisabled, storeCart, initialState, primaryAction]

/-! ## Payment -/

/-- C4, as stated, fails: with two items, the first delete succeeding and the
second failing, both deletes are issued and the modal is closed with checkout
marked done, but `fetchCart` is never called. -/
theorem handlePayment_skips_refetch_on_failure :
    (handlePayment twoItemState (fun i => decide (i = 0)) (some [])).calls
        = [Call.deleteReq "p1", Call.deleteReq "p2"]
      ∧ Call.fetchCart ∉ (handlePayment twoItemState (fun i => decide (i = 0)) (some [])).calls
      ∧ (handlePayment twoItemState (fun i => decide (i = 0)) (some [])).checkoutDone = true := by
  have hcalls : (handlePayment twoItemState (fun i => decide (i = 0)) (some [])).calls
      = [Call.deleteReq "p1", Call.deleteReq "p2"] := by
    simp [handlePayment, handlePaymentFinally, handlePaymentThen, handlePaymentTimeout,
      handlePaymentStart, closeModal, allFulfilled, twoItemState, openModal, selectVendor, fetchVendors,
      storeCart, initialState, scenarioItem, secondItem, List.range, List.range.loop]
  refine ⟨hcalls, ?_, ?_⟩
  · rw [hcalls]
    simp
  · simp [handlePayment, handlePaymentFinally]

/-- C4, amended. For every state and every combination of outcomes of the
delete requests, `handlePayment` issues exactly one delete per cart item, in
cart order, keyed by `item.product._id`; it calls `fetchCart` after them
exactly when every delete succeeded and not at all otherwise; in every case it
ends with the modal closed, `checkoutDone` true and `paymentSuccess` true. -/
theorem handlePayment_calls (s : PageState) (outcomes : Nat → Bool)
    (fetched : Option (List CartItem)) :
    (handlePayment s outcomes fetched).calls
        = s.calls ++ s.cart.map (fun item => Call.deleteReq item.product._id)
            ++ (if allFulfilled s.cart.length outcomes then [Call.fetchCart] else [])
      ∧ (allFulfilled s.cart.length outcomes = true ↔ ∀ i, i < s.cart.length → outcomes i = true)
      ∧ (handlePayment s outcomes fetched).modalOpen = false
      ∧ (handlePayment s outcomes fetched).checkoutDone = true
      ∧ (handlePayment s outcomes fetched).paymentSuccess = true
      ∧ (handlePayment s outcomes fetched).processingPayment = false := by
  refine ⟨?_, ?_, ?_, ?_, ?_, ?_⟩
  · cases hall : allFulfilled s.cart.length outcomes <;> cases fetched <;>
      simp [handlePayment, handlePaymentFinally, handlePaymentThen, handlePaymentTimeout,
        handlePaymentStart, closeModal, storeCart, hall]
  · simp [allFulfilled, List.all_eq_true]
  · simp [handlePayment, handlePaymentFinally, closeModal]
  · simp [handlePayment, handlePaymentFinally]
  · cases hall : allFulfilled s.cart.length outcomes <;> cases fetched <;>
      simp [handlePayment, handlePaymentFinally, handlePaymentThen, handlePaymentTimeout,
        handlePaymentStart, closeModal, storeCart, hall]
  · cases hall : allFulfilled s.cart.length outcomes <;> cases fetched <;>
      simp [handlePayment, handlePaymentFinally, handlePaymentThen, handlePaymentTimeout,
        handlePaymentStart, closeModal, storeCart, hall]

/-- With two items and both deletes succeeding, the two deletes are followed
by one call of `fetchCart`. -/
theorem handlePayment_calls_scenario :
    (handlePayment twoItemState (fun _ => true) (some [])).calls
      = [Call.deleteReq "p1", Call.deleteReq "p2", Call.fetchCart] := by
  have h := (handlePayment_calls twoItemState (fun _ => true) (some [])).1
  have hall : allFulfilled twoItemState.cart.length (fun _ => true) = true :=
    (handlePayment_calls twoItemState (fun _ => true) (some [])).2.1.mpr (fun _ _ => rfl)
  rw [h, hall]
  simp [twoItemState, openModal, selectVendor, fetchVendors, storeCart, initialState, scenarioItem,
    secondItem]

/-- C3 at the scenario cart: after `handlePayment` has run to completion with
the delete succeeding and the refetched cart empty, `checkoutDone` is true and
the cart is empty, and the view is the empty-state placeholder, which holds no
"Download Invoice" button; that button is rendered only while the cart is
non-empty. -/
theorem download_invoice_absent_after_checkout :
    paidState.checkoutDone = true
      ∧ paidState.cart = []
      ∧ (render paidState).body = Body.emptyState
      ∧ (render paidState).hasDownloadInvoice = false
      ∧ (render { scenarioState with checkoutDone := true }).hasDownloadInvoice = true := by
  have hcart : paidState.cart = [] := by
    simp [paidState, handlePayment, handlePaymentFinally, handlePaymentThen,
      handlePaymentTimeout, handlePaymentStart, closeModal, storeCart, allFulfilled]
  refine ⟨?_, hcart, ?_, ?_, ?_⟩
  · simp [paidState, handlePayment, handlePaymentFinally]
  · simp [render, hcart]
  · simp [render, View.hasDownloadInvoice, hcart]
  · simp [render, View.hasDownloadInvoice, primaryAction, scenarioState, selectVendor, fetchVendors,
      storeCart, initialState]

/-! ## Invoice -/

/-- The invoice depends on the cart, the edited quantities and the discount only. -/
theorem generatePDF_congr (s t : PageState) (hcart : s.cart = t.cart)
    (hqty : s.editedQuantities = t.editedQuantities) (hdisc : s.discount = t.discount) :
    generatePDF s = generatePDF t := by
  simp only [generatePDF, calculateTotal, hcart, hqty, hdisc]

theorem generatePDF_rows (s : PageState) : (generatePDF s).rows = s.cart.map (invoiceRow s) :=
  rfl

theorem generatePDF_totals (s : PageState) :
    (generatePDF s).subtotal = (calculateTotal s).subtotal
      ∧ (generatePDF s).discountPct = s.discount
      ∧ (generatePDF s).discountAmount = (calculateTotal s).discount
      ∧ (generatePDF s).total = (calculateTotal s).total :=
  ⟨rfl, rfl, rfl, rfl⟩

/-- The invoice of a cart holding a single item, before any arithmetic is evaluated. -/
theorem generatePDF_single (s : PageState) (item : CartItem) (h : s.cart = [item]) :
    generatePDF s =
      { rows := [{ name := item.product.name, price := item.product.price,
                   qty := objGet s.editedQuantities item._id,
                   lineSubtotal :=
                     (JSNum.num item.product.price).mul (numAt s.editedQuantities item._id) }],
        subtotal := (calculateTotal s).subtotal,
        discountPct := s.discount,
        discountAmount := (calculateTotal s).discount,
        total := (calculateTotal s).total,
        fileName := "invoice.pdf" } := by
  simp only [generatePDF, h, List.map_cons, List.map_nil]

/-- What `handlePayment` leaves in the three slots the invoice reads. -/
theorem handlePayment_invoice_slots (s : PageState) (outcomes : Nat → Bool)
    (fetched : Option (List CartItem)) :
    (handlePayment s outcomes fetched).discount = s.discount
      ∧ (allFulfilled s.cart.length outcomes = false →
          (handlePayment s outcomes fetched).cart = s.cart
            ∧ (handlePayment s outcomes fetched).editedQuantities = s.editedQuantities)
      ∧ (fetched = none →
          (handlePayment s outcomes fetched).cart = s.cart
            ∧ (handlePayment s outcomes fetched).editedQuantities = s.editedQuantities)
      ∧ (∀ c, allFulfilled s.cart.length outcomes = true → fetched = some c →
          (handlePayment s outcomes fetched).cart = c
            ∧ (handlePayment s outcomes fetched).editedQuantities = initQuantities c) := by
  refine ⟨?_, ?_, ?_, ?_⟩
  · cases hall : allFulfilled s.cart.length outcomes <;> cases fetched <;>
      simp [handlePayment, handlePaymentFinally, handlePaymentThen, handlePaymentTimeout,
        handlePaymentStart, closeModal, storeCart, hall]
  · intro hall
    simp [handlePayment, handlePaymentFinally, handlePaymentThen, handlePaymentTimeout,
      handlePaymentStart, closeModal, hall]
  · intro hf
    subst hf
    cases hall : allFulfilled s.cart.length outcomes <;>
      simp [handlePayment, handlePaymentFinally, handlePaymentThen, handlePaymentTimeout,
        handlePaymentStart, closeModal, hall]
  · intro c hall hf
    subst hf
    simp [handlePayment, handlePaymentFinally, handlePaymentThen, handlePaymentTimeout,
      handlePaymentStart, closeModal, storeCart, hall]

theorem scenarioState_discount : scenarioState.discount = 10 := by
  simp [scenarioState, selectVendor, fetchVendors, applyVendorDiscount, scenarioVendor,
    plainVendor]

theorem scenarioState_cart : scenarioState.cart = [scenarioItem] := by
  simp [scenarioState, selectVendor, fetchVendors, storeCart]

theorem scenarioItem_fields :
    scenarioItem._id = "c1" ∧ scenarioItem.product.name = "Burka"
      ∧ scenarioItem.product.price = 100 := by
  simp [scenarioItem]

theorem secondItem_fields :
    secondItem._id = "c2" ∧ secondItem.product.name = "Scarf"
      ∧ secondItem.product.price = 50 := by
  simp [secondItem]

/-- The totals of one item of price 100 and quantity 2 at 10%. -/
theorem totals_burka :
    (JSNum.num 0).add ((JSNum.num 100).mul (JSNum.num 2)) = JSNum.num 200
      ∧ (JSNum.num 100).mul (JSNum.num 2) = JSNum.num 200
      ∧ ((JSNum.num 200).mul (JSNum.num 10)).div100 = JSNum.num 20
      ∧ (JSNum.num 200).sub (JSNum.num 20) = JSNum.num 180 := by
  have h200 : roundF64 200 = JSNum.num 200 := roundF64_ofNat 200 (by norm_num)
  have h2000 : roundF64 2000 = JSNum.num 2000 := roundF64_ofNat 2000 (by norm_num)
  have h20 : roundF64 20 = JSNum.num 20 := roundF64_ofNat 20 (by norm_num)
  have h180 : roundF64 180 = JSNum.num 180 := roundF64_ofNat 180 (by norm_num)
  have e1 : (100 : ℚ) * 2 = 200 := by norm_num
  have e2 : (0 : ℚ) + 200 = 200 := by norm_num
  have e3 : (200 : ℚ) * 10 = 2000 := by norm_num
  have e4 : (2000 : ℚ) / 100 = 20 := by norm_num
  have e5 : (200 : ℚ) - 20 = 180 := by norm_num
  refine ⟨?_, ?_, ?_, ?_⟩
  · rw [JSNum.mul_num, e1, h200, JSNum.add_num, e2, h200]
  · rw [JSNum.mul_num, e1, h200]
  · rw [JSNum.mul_num, e3, h2000, JSNum.div100_num, e4, h20]
  · rw [JSNum.sub_num, e5, h180]

/-- The totals of one item of price 50 and quantity 1 at 10%. -/
theorem totals_scarf :
    (JSNum.num 0).add ((JSNum.num 50).mul (JSNum.num 1)) = JSNum.num 50
      ∧ (JSNum.num 50).mul (JSNum.num 1) = JSNum.num 50
      ∧ ((JSNum.num 50).mul (JSNum.num 10)).div100 = JSNum.num 5
      ∧ (JSNum.num 50).sub (JSNum.num 5) = JSNum.num 45 := by
  have h50 : roundF64 50 = JSNum.num 50 := roundF64_ofNat 50 (by norm_num)
  have h500 : roundF64 500 = JSNum.num 500 := roundF64_ofNat 500 (by norm_num)
  have h5 : roundF64 5 = JSNum.num 5 := roundF64_ofNat 5 (by norm_num)
  have h45 : roundF64 45 = JSNum.num 45 := roundF64_ofNat 45 (by norm_num)
  have e1 : (50 : ℚ) * 1 = 50 := by norm_num
  have e2 : (0 : ℚ) + 50 = 50 := by norm_num
  have e3 : (50 : ℚ) * 10 = 500 := by norm_num
  have e4 : (500 : ℚ) / 100 = 5 := by norm_num
  have e5 : (50 : ℚ) - 5 = 45 := by norm_num
  refine ⟨?_, ?_, ?_, ?_⟩
  · rw [JSNum.mul_num, e1, h50, JSNum.add_num, e2, h50]
  · rw [JSNum.mul_num, e1, h50]
  · rw [JSNum.mul_num, e3, h500, JSNum.div100_num, e4, h5]
  · rw [JSNum.sub_num, e5, h45]

/-- The invoice of the scenario cart before checkout. -/
theorem generatePDF_scenario :
    generatePDF scenarioState
      = { rows := [{ name := "Burka", price := 100, qty := some (JSNum.num 2),
                     lineSubtotal := JSNum.num 200 }],
          subtotal := JSNum.num 200, discountPct := 10, discountAmount := JSNum.num 20,
          total := JSNum.num 180, fileName := "invoice.pdf" } := by
  have hq : objGet scenarioState.editedQuantities "c1" = some (JSNum.num 2) := by
    rw [scenarioState_quantities]
    simp [objGet]
  have hn : numAt scenarioState.editedQuantities "c1" = JSNum.num 2 := by
    rw [numAt, hq]
  rw [generatePDF_single scenarioState scenarioItem scenarioState_cart,
    calculateTotal_single scenarioState scenarioItem scenarioState_cart,
    scenarioItem_fields.1, scenarioItem_fields.2.1, scenarioItem_fields.2.2, hq, hn,
    scenarioState_discount, totals_burka.1, totals_burka.2.1, totals_burka.2.2.1,
    totals_burka.2.2.2]

/-- The invoice of the scenario page once the store holds the second item. -/
theorem generatePDF_refilled :
    generatePDF (storeCart scenarioState [secondItem])
      = { rows := [{ name := "Scarf", price := 50, qty := some (JSNum.num 1),
                     lineSubtotal := JSNum.num 50 }],
          subtotal := JSNum.num 50, discountPct := 10, discountAmount := JSNum.num 5,
          total := JSNum.num 45, fileName := "invoice.pdf" } := by
  have hcart : (storeCart scenarioState [secondItem]).cart = [secondItem] := by
    simp [storeCart]
  have hdisc : (storeCart scenarioState [secondItem]).discount = 10 := by
    rw [← scenarioState_discount]
    simp [storeCart]
  have hq : objGet (storeCart scenarioState [secondItem]).editedQuantities "c2"
      = some (JSNum.num 1) := by
    simp [storeCart, initQuantities, secondItem, objSet, objGet]
  have hn : numAt (storeCart scenarioState [secondItem]).editedQuantities "c2"
      = JSNum.num 1 := by
    rw [numAt, hq]
  rw [generatePDF_single _ secondItem hcart, calculateTotal_single _ secondItem hcart,
    secondItem_fields.1, secondItem_fields.2.1, secondItem_fields.2.2, hq, hn,
    hdisc, totals_scarf.1, totals_scarf.2.1, totals_scarf.2.2.1, totals_scarf.2.2.2]

/-- C7, as stated, fails: the scenario cart (Burka, 100, quantity 2, 10%) is
paid, the delete succeeds, and the refetch finds another item (a scarf) in the
shared cart store.  The view then offers "Download Invoice", and the invoice
has the single row (Scarf, 50, 1, 50) with totals 50, 5, 45, not the row
(Burka, 100, 2, 200) and totals 200, 20, 180 of the cart as it was before it
was cleared. -/
theorem invoice_follows_refetched_cart :
    (render refilledState).hasDownloadInvoice = true
      ∧ refilledState.checkoutDone = true
      ∧ generatePDF (openModal scenarioState)
          = { rows := [{ name := "Burka", price := 100, qty := some (JSNum.num 2),
                         lineSubtotal := JSNum.num 200 }],
              subtotal := JSNum.num 200, discountPct := 10, discountAmount := JSNum.num 20,
              total := JSNum.num 180, fileName := "invoice.pdf" }
      ∧ generatePDF refilledState
          = { rows := [{ name := "Scarf", price := 50, qty := some (JSNum.num 1),
                         lineSubtotal := JSNum.num 50 }],
              subtotal := JSNum.num 50, discountPct := 10, discountAmount := JSNum.num 5,
              total := JSNum.num 45, fileName := "invoice.pdf" }
      ∧ generatePDF refilledState ≠ generatePDF (openModal scenarioState) := by
  have hall : allFulfilled (openModal scenarioState).cart.length (fun _ => true) = true := by
    simp [allFulfilled]
  have hslots := handlePayment_invoice_slots (openModal scenarioState) (fun _ => true)
    (some [secondItem])
  have hpost := hslots.2.2.2 [secondItem] hall rfl
  have hpre : generatePDF (openModal scenarioState) = generatePDF scenarioState :=
    generatePDF_congr _ _ rfl rfl rfl
  have hgen : generatePDF refilledState = generatePDF (storeCart scenarioState [secondItem]) := by
    apply generatePDF_congr
    · rw [refilledState, hpost.1]
      simp [storeCart]
    · rw [refilledState, hpost.2]
      simp [storeCart]
    · rw [refilledState, hslots.1]
      simp [storeCart, openModal]
  have hdone : refilledState.checkoutDone = true := by
    simp [refilledState, handlePayment, handlePaymentFinally]
  have hcart : refilledState.cart = [secondItem] := by
    rw [refilledState, hpost.1]
  refine ⟨?_, hdone, ?_, ?_, ?_⟩
  · simp [render, View.hasDownloadInvoice, primaryAction, hcart, hdone]
  · rw [hpre, generatePDF_scenario]
  · rw [hgen, generatePDF_refilled]
  · rw [hgen, generatePDF_refilled, hpre, generatePDF_scenario]
    intro h
    have hrows := congrArg Invoice.subtotal h
    have h2 := JSNum.num.inj hrows
    norm_num at h2

/-- C7, amended. An invoice generated after a completed checkout contains one
table row per item of the cart store as it is at generation time, each row
being [product name, unit price, edited quantity, unit price × edited
quantity] with the quantities of the edited-quantity map at that time,
followed by the subtotal, discount percentage and amount, and total computed
from those same values.  When the payment step did not refetch the cart (a
delete failed, or `fetchCart` was rejected) this is the invoice of the cart and
quantity map as they were before the payment; when it refetched cart `c`, it is
the invoice of `c` with the quantities stored in `c`. -/
theorem generatePDF_after_checkout (s : PageState) (outcomes : Nat → Bool)
    (fetched : Option (List CartItem)) :
    (generatePDF (handlePayment s outcomes fetched)).rows
        = (handlePayment s outcomes fetched).cart.map
            (invoiceRow (handlePayment s outcomes fetched))
      ∧ (generatePDF (handlePayment s outcomes fetched)).subtotal
          = (calculateTotal (handlePayment s outcomes fetched)).subtotal
      ∧ (generatePDF (handlePayment s outcomes fetched)).discountPct = s.discount
      ∧ (generatePDF (handlePayment s outcomes fetched)).discountAmount
          = (calculateTotal (handlePayment s outcomes fetched)).discount
      ∧ (generatePDF (handlePayment s outcomes fetched)).total
          = (calculateTotal (handlePayment s outcomes fetched)).total
      ∧ (allFulfilled s.cart.length outcomes = false →
          generatePDF (handlePayment s outcomes fetched) = generatePDF s)
      ∧ (fetched = none → generatePDF (handlePayment s outcomes fetched) = generatePDF s)
      ∧ (∀ c, allFulfilled s.cart.length outcomes = true → fetched = some c →
          generatePDF (handlePayment s outcomes fetched) = generatePDF (storeCart s c)) := by
  have hslots := handlePayment_invoice_slots s outcomes fetched
  have htot := generatePDF_totals (handlePayment s outcomes fetched)
  refine ⟨generatePDF_rows _, htot.1, ?_, htot.2.2.1, htot.2.2.2, ?_, ?_, ?_⟩
  · rw [htot.2.1, hslots.1]
  · intro hall
    exact generatePDF_congr _ _ (hslots.2.1 hall).1 (hslots.2.1 hall).2 hslots.1
  · intro hf
    exact generatePDF_congr _ _ (hslots.2.2.1 hf).1 (hslots.2.2.1 hf).2 hslots.1
  · intro c hall hf
    have h := hslots.2.2.2 c hall hf
    exact generatePDF_congr _ _ (by rw [h.1]; rfl) (by rw [h.2]; rfl) (by rw [hslots.1]; rfl)

/-- When the delete of the scenario payment fails, the invoice generated after
the checkout is the one of the cart before the payment: the row
(Burka, 100, 2, 200) and totals 200, 20, 180. -/
theorem generatePDF_after_checkout_scenario :
    generatePDF (handlePayment (openModal scenarioState) (fun _ => false) none)
      = { rows := [{ name := "Burka", price := 100, qty := some (JSNum.num 2),
                     lineSubtotal := JSNum.num 200 }],
          subtotal := JSNum.num 200, discountPct := 10, discountAmount := JSNum.num 20,
          total := JSNum.num 180, fileName := "invoice.pdf" } := by
  have hall : allFulfilled (openModal scenarioState).cart.length (fun _ => false) = false := by
    simp [allFulfilled, openModal, scenarioState_cart, List.range, List.range.loop]
  have h := (generatePDF_after_checkout (openModal scenarioState) (fun _ => false)
    none).2.2.2.2.2.1 hall
  have hpre : generatePDF (openModal scenarioState) = generatePDF scenarioState :=
    generatePDF_congr _ _ rfl rfl rfl
  rw [h, hpre, generatePDF_scenario]

/-! ## Delete control -/

/-- C2 at the scenario item (own key "c1", product key "p1"): after a click on
its delete button the request for "p1" is in flight and the flag of "p1" is
true, but the flag the button reads, that of "c1", is not set, so the button
is still enabled and a second click sends a second delete for "p1". -/
theorem delete_control_stays_enabled :
    (clickDelete scenarioState scenarioItem).calls = [Call.deleteReq "p1"]
      ∧ objGet (clickDelete scenarioState scenarioItem).itemsBeingDeleted "p1" = some true
      ∧ objGet (clickDelete scenarioState scenarioItem).itemsBeingDeleted "c1" = none
      ∧ deleteDisabled (clickDelete scenarioState scenarioItem) scenarioItem = false
      ∧ (clickDelete (clickDelete scenarioState scenarioItem) scenarioItem).calls
          = [Call.deleteReq "p1", Call.deleteReq "p1"] := by
  have h1 : clickDelete scenarioState scenarioItem
      = handleDeleteStart scenarioState "p1" := by
    simp [clickDelete, deleteDisabled, flagAt, objGet, scenarioState, selectVendor, fetchVendors, storeCart,
      initialState, scenarioItem]
  have hflag : deleteDisabled (handleDeleteStart scenarioState "p1") scenarioItem = false := by
    simp [deleteDisabled, flagAt, handleDeleteStart, objSet, objGet, scenarioState,
      selectVendor, fetchVendors, storeCart, initialState, scenarioItem]
  have h2 : clickDelete (handleDeleteStart scenarioState "p1") scenarioItem
      = handleDeleteStart (handleDeleteStart scenarioState "p1") "p1" := by
    have hid : scenarioItem.product._id = "p1" := rfl
    simp only [clickDelete, hflag, hid, Bool.false_eq_true, if_false]
  rw [h1, h2]
  refine ⟨?_, ?_, ?_, hflag, ?_⟩
  · simp [handleDeleteStart, scenarioState, selectVendor, fetchVendors, storeCart, initialState]
  · simp [handleDeleteStart, objSet, objGet, scenarioState, selectVendor, fetchVendors, storeCart,
      initialState]
  · simp [handleDeleteStart, objSet, objGet, scenarioState, selectVendor, fetchVendors, storeCart,
      initialState]
  · simp [handleDeleteStart, scenarioState, selectVendor, fetchVendors, storeCart, initialState]

end CartPage
